import Mathlib

/-!
Verification development for the ratbag-command CLI dispatcher.

Shallow embedding of `src/tools/ratbag-command.c`: the hierarchical command
dispatcher, lazy context resolution (`fill_options`), the button-action
encoding (`str_to_macro` and the `change-button` handler), and the usage
formatter (`usage_subcommand`).

Conventions:
 - C `int` result codes are modelled as `Int`; the error constants mirror
   `enum errors`.
 - Undefined behaviour (dereferencing a null collaborator handle, reading
   `argv` past the physical end of the vector) is modelled by returning
   `Option.none` ("crash") from the affected function; `some` results are
   the defined executions.
 - The device-abstraction collaborator (libratbag proper and
   `tools/shared.h`, which are part of this repository but not under
   `src/`) is modelled from the spec, section 6: see the doc comments on
   the individual collaborator functions.
 - The C library functions `atoi` and `strtod` are modelled directly from
   their C semantics on decimal inputs (see their doc comments).
-/

/-- `enum errors`: SUCCESS. -/
def SUCCESS : Int := 0

/-- `enum errors`: ERR_UNSUPPORTED (device doesn't support function, or an
index exceeds the device). -/
def ERR_UNSUPPORTED : Int := 1

/-- `enum errors`: ERR_USAGE (invalid commandline). -/
def ERR_USAGE : Int := 2

/-- `enum errors`: ERR_DEVICE (invalid/missing device or command failed). -/
def ERR_DEVICE : Int := 3

/-- The whitespace characters skipped by C `strtod`/`atoi` (`isspace` in the
POSIX locale). -/
def isSpaceC (c : Char) : Bool :=
  c = ' ' || c = '\t' || c = '\n' || c = '\r' || c = '\x0b' || c = '\x0c'

/-- Skip leading C whitespace. -/
def skipWs : List Char → List Char
  | [] => []
  | c :: cs => if isSpaceC c then skipWs cs else c :: cs

/-- Read an optional sign character; returns (isNegative, rest). -/
def readSign : List Char → Bool × List Char
  | [] => (false, [])
  | c :: cs =>
    if c = '-' then (true, cs)
    else if c = '+' then (false, cs)
    else (false, c :: cs)

/-- Consume a maximal run of decimal digits, returning (number of digits
consumed, accumulated value, rest). -/
def takeDigits : List Char → Nat → Nat → Nat × Nat × List Char
  | [], n, acc => (n, acc, [])
  | c :: cs, n, acc =>
    if c.isDigit then takeDigits cs (n + 1) (acc * 10 + (c.toNat - 48))
    else (n, acc, c :: cs)

/-- Modelled from the C library `atoi`: skip whitespace, read an optional
sign and a maximal digit run; 0 when there are no digits.  Integer overflow
is not modelled. -/
def atoi (s : String) : Int :=
  let cs := skipWs s.data
  let (neg, cs1) := readSign cs
  let (_, v, _) := takeDigits cs1 0 0
  if neg then -(v : Int) else (v : Int)

/-- Truncation of `sign * m * 10 ^ e2` toward zero, as the C conversion of
the parsed double to `int` does for exactly-representable values. -/
def truncVal (neg : Bool) (m : Nat) (e2 : Int) : Int :=
  let mag : Nat := if 0 ≤ e2 then m * 10 ^ e2.toNat else m / 10 ^ (-e2).toNat
  if neg then -(mag : Int) else (mag : Int)

/-- Modelled from the C library `strtod` as used at the index-disambiguation
sites (`resolution_idx = strtod(command, &endp); if (command != endp &&
*endp == '\0')`): returns `some v` exactly when the decimal parse consumes
the whole token and at least one mantissa digit was read, where `v` is the
parsed value truncated toward zero to `int`.  Restricted to decimal forms:
hexadecimal floats and the `inf`/`nan` spellings are not modelled, the
value is computed in exact rational arithmetic (binary floating-point
rounding is not modelled), and overflow of the `int` conversion is not
modelled. -/
def strtodFull (s : String) : Option Int :=
  let cs := skipWs s.data
  let (neg, cs1) := readSign cs
  let (n1, m1, cs2) := takeDigits cs1 0 0
  let (n2, m2, cs3) :=
    match cs2 with
    | '.' :: rest => takeDigits rest 0 0
    | _ => (0, 0, cs2)
  let m := m1 * 10 ^ n2 + m2
  if n1 + n2 = 0 then none
  else
    match cs3 with
    | [] => some (truncVal neg m (0 - (n2 : Int)))
    | e :: rest =>
      if e = 'e' || e = 'E' then
        let (eneg, r1) := readSign rest
        let (k, ev, r2) := takeDigits r1 0 0
        if k = 0 then none
        else if r2 = [] then
          some (truncVal neg m ((if eneg then -(ev : Int) else (ev : Int)) - (n2 : Int)))
        else none
      else none

/-- Modelled from the spec, section 9: `tryParseFullInteger(token) →
Some(value) | None` — the token parses fully as an integer exactly when an
optional sign followed by at least one digit consumes the entire token.
This is the spec-side parser, to be compared with the code's
strtod-with-end-pointer check (`strtodFull`). -/
def tryParseFullInteger (s : String) : Option Int :=
  let (neg, cs1) := readSign s.data
  let (n, v, rest) := takeDigits cs1 0 0
  if 1 ≤ n ∧ rest = [] then some (if neg then -(v : Int) else (v : Int)) else none

/-! Device model: the collaborator's data, spec section 6. -/

/-- Key codes from `linux/input-event-codes.h` used by the tool. -/
def KEY_F : Nat := 33

/-- Key code of the O key. -/
def KEY_O : Nat := 24

/-- Key code of the B key. -/
def KEY_B : Nat := 48

/-- Key code of the A key. -/
def KEY_A : Nat := 30

/-- Key code of the R key. -/
def KEY_R : Nat := 19

/-- Key code of the volume-up key. -/
def KEY_VOLUMEUP : Nat := 115

/-- Key code of the volume-down key. -/
def KEY_VOLUMEDOWN : Nat := 114

/-- Modelled from the spec: the collaborator's
`RATBAG_BUTTON_ACTION_TYPE_NONE` — the not-configured action type, the zero
value of the enum. -/
def ACTION_TYPE_NONE : Nat := 0

/-- One button of a profile, as seen through the collaborator queries the
tool performs (`ratbag_button_get_key`, `ratbag_button_get_action_type`). -/
structure BState where
  key : Nat
  actionType : Nat
deriving DecidableEq, Repr

/-- One resolution slot of a profile: the active flag queried by
`ratbag_resolution_is_active` and the dpi value read by
`ratbag_resolution_get_dpi`. -/
structure Resolution where
  active : Bool
  dpi : Nat
deriving DecidableEq, Repr

/-- One profile of a device with its active flag, resolution slots and
buttons, enumerated with stable indices (spec section 6). -/
structure Profile where
  active : Bool
  resolutions : List Resolution
  buttons : List BState
deriving DecidableEq, Repr

/-- A device as the collaborator reports it: capability flags and the
profile list with stable indices. -/
structure Device where
  capSwitchRes : Bool
  capSwitchProf : Bool
  capBtnKey : Bool
  capBtnMacros : Bool
  profiles : List Profile
deriving DecidableEq, Repr

/-- Macro event types (`enum ratbag_macro_event_type` of the collaborator;
spec section 3: Pressed | Released | None, with None the zero value that
terminates the sequence). -/
inductive MEvType where
  | evNone
  | evPressed
  | evReleased
deriving DecidableEq, Repr

/-- One macro event: type and key code (`struct macro`'s `events[]` entry). -/
structure MEv where
  t : MEvType
  d : Nat
deriving DecidableEq, Repr

/-- `struct macro`: name plus the bounded 64-entry event array. -/
structure Macro where
  name : Option String
  events : List MEv
deriving DecidableEq, Repr

/-- The zero-initialised `struct macro macro = {0}` of
`ratbag_cmd_change_button`: null name, 64 all-zero events. -/
def macro0 : Macro := { name := none, events := List.replicate 64 { t := MEvType.evNone, d := 0 } }

/-- Mutating collaborator calls, recorded in order of invocation so that
"no mutation was attempted" is an observable property of a run. -/
inductive Mut where
  | setButton (btnIdx : Nat) (target : Int)
  | setKey (btnIdx : Nat) (key : Nat)
  | setSpecial (btnIdx : Nat) (sp : Nat)
  | setMacro (btnIdx : Nat) (nm : Option String)
  | setMacroEvent (btnIdx : Nat) (i : Nat) (t : MEvType) (d : Nat)
  | writeMacro (btnIdx : Nat)
  | setActiveProfile (p : Nat)
  | setDpi (ri : Nat) (dpi : Int)
  | disableButton (btnIdx : Nat)
deriving DecidableEq, Repr

/-- The environment of external behaviour the tool consumes: opening a
device by path (`ratbag_cmd_open_device` of `tools/shared.h`, modelled from
the spec: null when the path is not a supported device), the key-name
lookup (`libevdev_event_code_from_name`, 0 when unknown), the
special-action lookup (`str_to_special_action` of `tools/shared.h`,
modelled from the spec: a fixed vocabulary, none when unmatched), and the
result code each mutating collaborator call returns. -/
structure REnv where
  openDevice : String → Option Device
  keyCode : String → Nat
  specialAction : String → Option Nat
  mutRc : Mut → Int

/-- `struct ratbag_cmd_options`: the mutable per-invocation context.
Handles are modelled as indices resolved through the device; `devAcq`,
`profAcq`, `resAcq` count how many owned handles were stored into the
corresponding field (each store of a fresh collaborator reference
increments the count); `prints` records the numbers printed to standard
output by the handlers that print one; `muts` records the mutating
collaborator calls. -/
structure Ctx where
  device : Option Device
  profile : Option Nat
  resolution : Option Nat
  button : Int
  devAcq : Nat
  profAcq : Nat
  resAcq : Nat
  prints : List Int
  muts : List Mut
deriving DecidableEq, Repr

/-- `main`'s zero-initialised options with `options.button = -1`. -/
def initialOptions : Ctx :=
  { device := none, profile := none, resolution := none, button := -1,
    devAcq := 0, profAcq := 0, resAcq := 0, prints := [], muts := [] }

/-- Append one mutating collaborator call to the log. -/
def addMut (c : Ctx) (m : Mut) : Ctx := { c with muts := c.muts ++ [m] }

/-- Record one number printed to standard output. -/
def addPrint (c : Ctx) (n : Int) : Ctx := { c with prints := c.prints ++ [n] }

/-- The argument vector as the C code sees it: `toks` is the physical
vector built by `main`, `start`/`len` delimit the currently visible
`argv`/`argc` window.  The handlers advance `start` (`argv++; argc--`) and
`ratbag_cmd_device_from_arg` shrinks `len` from the back; reads index the
physical vector, so a read past `len` but before the physical end yields
the token there (exactly as in C), and a read past the physical end is a
crash. -/
structure Args where
  toks : List String
  start : Nat
  len : Nat
deriving DecidableEq, Repr

/-- `argv[i]`: a physical read; `none` past the physical end of the
vector. -/
def Args.get (a : Args) (i : Nat) : Option String := a.toks[a.start + i]?

/-- `argc--; argv++`. -/
def Args.advance (a : Args) : Args := { a with start := a.start + 1, len := a.len - 1 }

/-- `(*argc)--`: the back token was consumed as the device path. -/
def Args.dropDevTok (a : Args) : Args := { a with len := a.len - 1 }

/-- The currently visible token window. -/
def Args.visible (a : Args) : List String := (a.toks.drop a.start).take a.len

/-- The prerequisite-context flag bits of `enum cmd_flags` carried by each
command node (`FLAG_NEED_DEVICE`, `FLAG_NEED_PROFILE`,
`FLAG_NEED_RESOLUTION`). -/
structure CmdFlags where
  needDevice : Bool
  needProfile : Bool
  needResolution : Bool
deriving DecidableEq, Repr

/-- `.flags = FLAG_NEED_DEVICE`. -/
def flagsD : CmdFlags := { needDevice := true, needProfile := false, needResolution := false }

/-- `.flags = FLAG_NEED_DEVICE | FLAG_NEED_PROFILE`. -/
def flagsDP : CmdFlags := { needDevice := true, needProfile := true, needResolution := false }

/-- `.flags = FLAG_NEED_DEVICE | FLAG_NEED_PROFILE | FLAG_NEED_RESOLUTION`. -/
def flagsDPR : CmdFlags := { needDevice := true, needProfile := true, needResolution := true }

/-- `.flags = 0`. -/
def flags0 : CmdFlags := { needDevice := false, needProfile := false, needResolution := false }

/-! Collaborator handle operations.

Handles are indices; a successful get-by-index is an owned reference.
Dereferencing a null handle is a crash (`none`). -/

/-- Modelled from the spec (section 6, enumerate profiles with stable
indices): `ratbag_device_get_profile_by_index` returns a handle for an
index inside the item count and null outside it. -/
def ratbag_device_get_profile_by_index (d : Device) (i : Int) : Option Nat :=
  if 0 ≤ i ∧ i < (d.profiles.length : Int) then some i.toNat else none

/-- `ratbag_cmd_get_active_profile` (lines 168-187): scan the device's
profiles in index order for the first one flagged active, unreferencing the
others; null (`some none`) when none is active.  Called with a null device
handle the profile-count query dereferences it: crash (`none`). -/
def ratbag_cmd_get_active_profile (d : Option Device) : Option (Option Nat) :=
  match d with
  | none => none
  | some dev => some (dev.profiles.findIdx? (fun p => p.active))

/-- `ratbag_cmd_get_active_resolution` (lines 189-208): scan the profile's
resolutions in index order for the first one flagged active; null
(`some none`) when none is active.  A null profile handle is a crash
(`none`); the profile handle is resolved through the device. -/
def ratbag_cmd_get_active_resolution (d : Option Device) (p : Option Nat) :
    Option (Option Nat) :=
  match d, p with
  | some dev, some pi =>
    match dev.profiles[pi]? with
    | none => none
    | some pr => some (pr.resolutions.findIdx? (fun r => r.active))
  | _, _ => none

/-- `ratbag_cmd_device_from_arg` (lines 143-166): with an empty visible
argument list, report the missing device path and fail; otherwise take the
LAST visible token as the path, open it through the collaborator, and only
on success consume that token (`(*argc)--`).  The inner `none` is the null
device of the C code (an `ERR_DEVICE` for the caller); the outer `none` is
a read past the physical end of the vector (unreachable for well-formed
argument windows). -/
def ratbag_cmd_device_from_arg (env : REnv) (a : Args) :
    Option (Option Device × Args) :=
  if a.len = 0 then some (none, a)
  else
    match a.get (a.len - 1) with
    | none => none
    | some path =>
      match env.openDevice path with
      | none => some (none, a)
      | some d => some (some d, a.dropDevTok)

/-- Third block of `fill_options` (lines 236-241): resolve the active
resolution when required and not cached. -/
def fill_options_res (env : REnv) (c : Ctx) (f : CmdFlags) (a : Args) :
    Option (Int × Ctx × Args) :=
  if f.needResolution && c.resolution.isNone then
    match ratbag_cmd_get_active_resolution c.device c.profile with
    | none => none
    | some none => some (ERR_DEVICE, c, a)
    | some (some ri) =>
      some (SUCCESS, { c with resolution := some ri, resAcq := c.resAcq + 1 }, a)
  else some (SUCCESS, c, a)

/-- Second block of `fill_options` (lines 228-234): resolve the active
profile when a profile or resolution is required and none is cached. -/
def fill_options_prof (env : REnv) (c : Ctx) (f : CmdFlags) (a : Args) :
    Option (Int × Ctx × Args) :=
  if (f.needProfile || f.needResolution) && c.profile.isNone then
    match ratbag_cmd_get_active_profile c.device with
    | none => none
    | some none => some (ERR_DEVICE, c, a)
    | some (some pi) =>
      fill_options_res env { c with profile := some pi, profAcq := c.profAcq + 1 } f a
  else fill_options_res env c f a

/-- `fill_options` (lines 210-244): lazily resolve, in dependency order,
the device (consuming the device-path token), the active profile and the
active resolution, caching each into the context; `ERR_DEVICE` on the
first failure. -/
def fill_options (env : REnv) (c : Ctx) (f : CmdFlags) (a : Args) :
    Option (Int × Ctx × Args) :=
  if (f.needDevice || f.needProfile || f.needResolution) && c.device.isNone then
    match ratbag_cmd_device_from_arg env a with
    | none => none
    | some (none, a1) => some (ERR_DEVICE, c, a1)
    | some (some d, a1) =>
      fill_options_prof env { c with device := some d, devAcq := c.devAcq + 1 } f a1
  else fill_options_prof env c f a

/-- A handler: the C command function `int (*cmd)(...)`, taking the
environment, the context and the argument window, returning the result
code and the updated context (`none` = crash). -/
def Handler : Type := REnv → Ctx → Args → Option (Int × Ctx)

/-- One command-tree node as the dispatcher sees it: name, prerequisite
flags, handler.  (The child lists live with the interior handlers, which
each dispatch over their own literal subcommand list, matching the static
`subcommands[]` arrays.) -/
structure Cmd where
  name : String
  flags : CmdFlags
  run : Handler

/-- `run_subcommand` (lines 246-275): scan the subcommand list for the
name, resolve its prerequisite flags via `fill_options`, consume the
matched token (`argc--; argv++`) and invoke the handler; `ERR_USAGE` when
no name matches.  (The C loop checks the first entry twice — `sub =
subcommands[0]` then `sub = subcommands[i++]` with `i = 0` — which is
equivalent to a plain first-match scan.) -/
def run_subcommand (subs : List Cmd) (env : REnv) (command : String)
    (c : Ctx) (a : Args) : Option (Int × Ctx) :=
  match subs.find? (fun s => s.name == command) with
  | none => some (ERR_USAGE, c)
  | some sub =>
    match fill_options env c sub.flags a with
    | none => none
    | some (rc, c1, a1) =>
      if rc ≠ SUCCESS then some (rc, c1)
      else sub.run env c1 a1.advance

/-! Leaf handlers. -/

/-- `ratbag_cmd_info` (lines 277-365): prints the device name,
capabilities, profiles, resolutions and button mappings — pure collaborator
reads with no context mutation — and returns SUCCESS.  A null device
handle is dereferenced by the first name query: crash. -/
def ratbag_cmd_info : Handler := fun env c a =>
  match c.device with
  | none => none
  | some d => some (SUCCESS, c)

/-- `ratbag_cmd_list_supported_devices` (lines 620-656): `ERR_USAGE` when
any argument remains, otherwise scans `/dev/input` (external filesystem
effect, output-only) and returns SUCCESS whether or not devices were
found. -/
def ratbag_cmd_list_supported_devices : Handler := fun env c a =>
  if a.len ≠ 0 then some (ERR_USAGE, c) else some (SUCCESS, c)

/-- The events written for the "foo" macro (`str_to_macro`, 'f' branch):
press/release F, press/release O, press/release O. -/
def fooEvents : List MEv :=
  [ { t := MEvType.evPressed, d := KEY_F }, { t := MEvType.evReleased, d := KEY_F },
    { t := MEvType.evPressed, d := KEY_O }, { t := MEvType.evReleased, d := KEY_O },
    { t := MEvType.evPressed, d := KEY_O }, { t := MEvType.evReleased, d := KEY_O } ]

/-- The events written for the "bar" macro (`str_to_macro`, 'b' branch):
press/release B, press/release A, press/release R. -/
def barEvents : List MEv :=
  [ { t := MEvType.evPressed, d := KEY_B }, { t := MEvType.evReleased, d := KEY_B },
    { t := MEvType.evPressed, d := KEY_A }, { t := MEvType.evReleased, d := KEY_A },
    { t := MEvType.evPressed, d := KEY_R }, { t := MEvType.evReleased, d := KEY_R } ]

/-- `str_to_macro` (lines 441-478): `-EINVAL` for a null argument; a first
character 'f' fills in the fixed foo sequence, 'b' the bar sequence, and
any other first character (including the terminating NUL of an empty
string) leaves the macro untouched; the return value is 0 in all three of
those cases. -/
def strToMacro (action_arg : Option String) (m : Macro) : Int × Macro :=
  match action_arg with
  | none => (-22, m)
  | some s =>
    match s.data.head? with
    | some ch =>
      if ch = 'f' then
        (0, { name := some "foo", events := fooEvents ++ m.events.drop 6 })
      else if ch = 'b' then
        (0, { name := some "bar", events := barEvents ++ m.events.drop 6 })
      else (0, m)
    | none => (0, m)

/-- The event-transfer loop of `ratbag_cmd_change_button`'s macro case
(lines 565-573): walk the event array in order, stopping at the first
`RATBAG_MACRO_EVENT_NONE`, and issue one `ratbag_button_set_macro_event`
call per remaining event. -/
def addMacroEvents (bIdx : Nat) : Ctx → Nat → List MEv → Ctx
  | c, _, [] => c
  | c, i, e :: l =>
    if e.t = MEvType.evNone then c
    else addMacroEvents bIdx (addMut c (Mut.setMacroEvent bIdx i e.t e.d)) (i + 1) l

/-- `enum ratbag_button_action_type` as used by `ratbag_cmd_change_button`:
the tagged action selected by the action-string argument. -/
inductive BAct where
  | actButton (target : Int)
  | actKey (key : Nat)
  | actSpecial (sp : Nat)
  | actMacro (m : Macro)

/-- The tail of `ratbag_cmd_change_button` after the action has been
encoded (lines 535-602): capability check, button lookup, the mutating
collaborator call(s) for the action, then `ratbag_profile_set_active`;
collaborator failures map to `ERR_UNSUPPORTED` and `ERR_DEVICE`
respectively. -/
def change_button_apply (env : REnv) (c : Ctx) (button_index : Int)
    (act : BAct) : Option (Int × Ctx) :=
  match c.device with
  | none => none
  | some d =>
    if ¬ d.capBtnKey then some (ERR_UNSUPPORTED, c)
    else
      match c.profile with
      | none => none
      | some pi =>
        match d.profiles[pi]? with
        | none => none
        | some pr =>
          if 0 ≤ button_index ∧ button_index < (pr.buttons.length : Int) then
            let bIdx := button_index.toNat
            let (rc, c1) : Int × Ctx :=
              match act with
              | BAct.actButton t =>
                (env.mutRc (Mut.setButton bIdx t), addMut c (Mut.setButton bIdx t))
              | BAct.actKey k =>
                (env.mutRc (Mut.setKey bIdx k), addMut c (Mut.setKey bIdx k))
              | BAct.actSpecial sp =>
                (env.mutRc (Mut.setSpecial bIdx sp), addMut c (Mut.setSpecial bIdx sp))
              | BAct.actMacro m =>
                let c1 := addMut c (Mut.setMacro bIdx m.name)
                let c2 := addMacroEvents bIdx c1 0 m.events
                (env.mutRc (Mut.writeMacro bIdx), addMut c2 (Mut.writeMacro bIdx))
            if rc ≠ 0 then some (ERR_UNSUPPORTED, c1)
            else
              let c2 := addMut c1 (Mut.setActiveProfile pi)
              if env.mutRc (Mut.setActiveProfile pi) ≠ 0 then some (ERR_DEVICE, c2)
              else some (SUCCESS, c2)
          else some (ERR_UNSUPPORTED, c)

/-- `ratbag_cmd_change_button` (lines 480-603): exactly three arguments;
the action string selects the encoding — "button" parses the target with
`atoi`, "key" resolves the key name (a zero code is `ERR_USAGE`), "special"
resolves the special-action name (`ERR_USAGE` when invalid), "macro" runs
`str_to_macro` on a zero-initialised macro (`ERR_USAGE` only when it
returns nonzero, i.e. never for a present argument) — then applies the
action. -/
def ratbag_cmd_change_button : Handler := fun env c a =>
  if a.len ≠ 3 then some (ERR_USAGE, c)
  else
    match a.get 0, a.get 1, a.get 2 with
    | some s0, some s1, some s2 =>
      let button_index := atoi s0
      if s1 = "button" then
        change_button_apply env c button_index (BAct.actButton (atoi s2))
      else if s1 = "key" then
        let k := env.keyCode s2
        if k = 0 then some (ERR_USAGE, c)
        else change_button_apply env c button_index (BAct.actKey k)
      else if s1 = "special" then
        match env.specialAction s2 with
        | none => some (ERR_USAGE, c)
        | some sp => change_button_apply env c button_index (BAct.actSpecial sp)
      else if s1 = "macro" then
        let (r, m) := strToMacro (some s2) macro0
        if r ≠ 0 then some (ERR_USAGE, c)
        else change_button_apply env c button_index (BAct.actMacro m)
      else some (ERR_USAGE, c)
    | _, _, _ => none

/-- `ratbag_cmd_switch_etekcity` (lines 376-422): capability check, fetch
buttons 6 and 7, then either disable both (when they currently report the
volume keys) or map them to the volume keys (when both are unconfigured),
following the C short-circuit evaluation order for the null-handle
dereferences; SUCCESS in every non-crashing case. -/
def ratbag_cmd_switch_etekcity : Handler := fun env c a =>
  match c.device with
  | none => none
  | some d =>
    if ¬ d.capSwitchProf then some (ERR_UNSUPPORTED, c)
    else
      match c.profile with
      | none => none
      | some pi =>
        match d.profiles[pi]? with
        | none => none
        | some pr =>
          let b6h := pr.buttons[6]?
          let b7h := pr.buttons[7]?
          match b6h with
          | none => none
          | some b6 =>
            if b6.key = KEY_VOLUMEUP then
              match b7h with
              | none => none
              | some b7 =>
                if b7.key = KEY_VOLUMEDOWN then
                  some (SUCCESS, addMut (addMut c (Mut.disableButton 6)) (Mut.disableButton 7))
                else if b6.actionType = ACTION_TYPE_NONE then
                  if b7.actionType = ACTION_TYPE_NONE then
                    some (SUCCESS, addMut (addMut c (Mut.setKey 6 KEY_VOLUMEUP)) (Mut.setKey 7 KEY_VOLUMEDOWN))
                  else some (SUCCESS, c)
                else some (SUCCESS, c)
            else if b6.actionType = ACTION_TYPE_NONE then
              match b7h with
              | none => none
              | some b7 =>
                if b7.actionType = ACTION_TYPE_NONE then
                  some (SUCCESS, addMut (addMut c (Mut.setKey 6 KEY_VOLUMEUP)) (Mut.setKey 7 KEY_VOLUMEDOWN))
                else some (SUCCESS, c)
            else some (SUCCESS, c)

/-- `ratbag_cmd_resolution_active_set` (lines 667-677): prints "Not yet
implemented" and returns SUCCESS. -/
def ratbag_cmd_resolution_active_set : Handler := fun env c a => some (SUCCESS, c)

/-- `ratbag_cmd_resolution_active_get` (lines 688-697): prints "Not yet
implemented" and returns SUCCESS. -/
def ratbag_cmd_resolution_active_get : Handler := fun env c a => some (SUCCESS, c)

/-- `ratbag_cmd_resolution_dpi_get` (lines 736-750): reads the cached
resolution's dpi and prints it. -/
def ratbag_cmd_resolution_dpi_get : Handler := fun env c a =>
  match c.device, c.profile, c.resolution with
  | some d, some pi, some ri =>
    match d.profiles[pi]? with
    | none => none
    | some pr =>
      match pr.resolutions[ri]? with
      | none => none
      | some r => some (SUCCESS, addPrint c (r.dpi : Int))
  | _, _, _ => none

/-- `ratbag_cmd_resolution_dpi_set` (lines 761-800): one argument parsed by
`atoi`; `ERR_UNSUPPORTED` without the switchable-resolution capability;
otherwise the mutating dpi write, `ERR_DEVICE` on collaborator failure. -/
def ratbag_cmd_resolution_dpi_set : Handler := fun env c a =>
  if a.len ≠ 1 then some (ERR_USAGE, c)
  else
    match a.get 0 with
    | none => none
    | some s0 =>
      let dpi := atoi s0
      match c.device with
      | none => none
      | some d =>
        if ¬ d.capSwitchRes then some (ERR_UNSUPPORTED, c)
        else
          match c.resolution with
          | none => none
          | some ri =>
            let c1 := addMut c (Mut.setDpi ri dpi)
            if env.mutRc (Mut.setDpi ri dpi) ≠ 0 then some (ERR_DEVICE, c1)
            else some (SUCCESS, c1)

/-- `ratbag_cmd_profile_active_set` (lines 938-997): one argument parsed by
`atoi`; `ERR_DEVICE` for a null device; `ERR_UNSUPPORTED` without the
switchable-profile capability or when `index > num_profiles` (note the
strict `>`: `index == num_profiles` passes the check, the by-index lookup
then yields a null handle and `ratbag_profile_is_active` dereferences it —
a crash); otherwise SUCCESS if already active, else the mutating
set-active call with `ERR_DEVICE` on failure. -/
def ratbag_cmd_profile_active_set : Handler := fun env c a =>
  if a.len ≠ 1 then some (ERR_USAGE, c)
  else
    match a.get 0 with
    | none => none
    | some s0 =>
      let index := atoi s0
      match c.device with
      | none => some (ERR_DEVICE, c)
      | some d =>
        if ¬ d.capSwitchProf then some (ERR_UNSUPPORTED, c)
        else if index > (d.profiles.length : Int) then some (ERR_UNSUPPORTED, c)
        else
          match ratbag_device_get_profile_by_index d index with
          | none => none
          | some pi =>
            match d.profiles[pi]? with
            | none => none
            | some pr =>
              if pr.active then some (SUCCESS, c)
              else
                let c1 := addMut c (Mut.setActiveProfile pi)
                if env.mutRc (Mut.setActiveProfile pi) = 0 then some (SUCCESS, c1)
                else some (ERR_DEVICE, c1)

/-- `ratbag_cmd_profile_active_get` (lines 1008-1054): SUCCESS printing 0
without scanning when the device lacks the switchable-profile capability or
reports at most one profile; otherwise scan for the first active profile
and print its index, or return `ERR_DEVICE` printing nothing when none is
active. -/
def ratbag_cmd_profile_active_get : Handler := fun env c a =>
  match c.device with
  | none => none
  | some d =>
    if ¬ d.capSwitchProf then some (SUCCESS, addPrint c 0)
    else if d.profiles.length ≤ 1 then some (SUCCESS, addPrint c 0)
    else
      match d.profiles.findIdx? (fun p => p.active) with
      | some i => some (SUCCESS, addPrint c (i : Int))
      | none => some (ERR_DEVICE, c)

/-! Interior handlers and the command tree. -/

/-- Children of `cmd_profile_active`: `cmd_profile_active_get`,
`cmd_profile_active_set` (both `.flags = FLAG_NEED_DEVICE`). -/
def profileActiveSubs : List Cmd :=
  [ { name := "get", flags := flagsD, run := ratbag_cmd_profile_active_get },
    { name := "set", flags := flagsD, run := ratbag_cmd_profile_active_set } ]

/-- `ratbag_cmd_profile_active` (lines 1065-1078): dispatch over
get/set. -/
def ratbag_cmd_profile_active : Handler := fun env c a =>
  if a.len < 1 then some (ERR_USAGE, c)
  else
    match a.get 0 with
    | none => none
    | some cmd0 => run_subcommand profileActiveSubs env cmd0 c a

/-- Children of `cmd_resolution_active` (both
`.flags = FLAG_NEED_DEVICE | FLAG_NEED_PROFILE`). -/
def resolutionActiveSubs : List Cmd :=
  [ { name := "get", flags := flagsDP, run := ratbag_cmd_resolution_active_get },
    { name := "set", flags := flagsDP, run := ratbag_cmd_resolution_active_set } ]

/-- `ratbag_cmd_resolution_active` (lines 708-721): dispatch over
get/set. -/
def ratbag_cmd_resolution_active : Handler := fun env c a =>
  if a.len < 1 then some (ERR_USAGE, c)
  else
    match a.get 0 with
    | none => none
    | some cmd0 => run_subcommand resolutionActiveSubs env cmd0 c a

/-- Children of `cmd_resolution_dpi` (both
`.flags = FLAG_NEED_DEVICE | FLAG_NEED_PROFILE | FLAG_NEED_RESOLUTION`). -/
def resolutionDpiSubs : List Cmd :=
  [ { name := "get", flags := flagsDPR, run := ratbag_cmd_resolution_dpi_get },
    { name := "set", flags := flagsDPR, run := ratbag_cmd_resolution_dpi_set } ]

/-- `ratbag_cmd_resolution_dpi` (lines 811-824): dispatch over get/set. -/
def ratbag_cmd_resolution_dpi : Handler := fun env c a =>
  if a.len < 1 then some (ERR_USAGE, c)
  else
    match a.get 0 with
    | none => none
    | some cmd0 => run_subcommand resolutionDpiSubs env cmd0 c a

/-- Children of `cmd_resolution`: `cmd_resolution_active`,
`cmd_resolution_dpi`. -/
def resolutionSubs : List Cmd :=
  [ { name := "active", flags := flagsDP, run := ratbag_cmd_resolution_active },
    { name := "dpi", flags := flagsDPR, run := ratbag_cmd_resolution_dpi } ]

/-- `ratbag_cmd_resolution` (lines 839-883): when `strtod` consumes the
whole first token, select the resolution by that explicit index
(`ERR_UNSUPPORTED` for a null handle, i.e. an index outside the item
count), consume the token and re-read `argv[0]` as the subcommand name
(a physical read that can land on the already-consumed device-path token);
otherwise resolve the active resolution (`ERR_DEVICE` when none).  The
chosen handle is stored into the context before dispatching. -/
def ratbag_cmd_resolution : Handler := fun env c a =>
  if a.len < 1 then some (ERR_USAGE, c)
  else
    match a.get 0 with
    | none => none
    | some command =>
      match strtodFull command with
      | some v =>
        match c.device, c.profile with
        | some d, some pi =>
          match d.profiles[pi]? with
          | none => none
          | some pr =>
            if 0 ≤ v ∧ v < (pr.resolutions.length : Int) then
              let a1 := a.advance
              match a1.get 0 with
              | none => none
              | some command1 =>
                run_subcommand resolutionSubs env command1
                  { c with resolution := some v.toNat, resAcq := c.resAcq + 1 } a1
            else some (ERR_UNSUPPORTED, c)
        | _, _ => none
      | none =>
        match ratbag_cmd_get_active_resolution c.device c.profile with
        | none => none
        | some none => some (ERR_DEVICE, c)
        | some (some ri) =>
          run_subcommand resolutionSubs env command
            { c with resolution := some ri, resAcq := c.resAcq + 1 } a

/-- `ratbag_cmd_button` (lines 898-924): reads `argv[1]` as the command,
optionally consuming a fully-numeric `argv[1]` into `options->button`, then
dispatches over an empty child list (the `FIXME` placeholder), which always
yields `ERR_USAGE`. -/
def ratbag_cmd_button : Handler := fun env c a =>
  if a.len < 2 then some (ERR_USAGE, c)
  else
    match a.get 1 with
    | none => none
    | some command =>
      match strtodFull command with
      | some v => run_subcommand [] env command { c with button := v } a.advance
      | none => run_subcommand [] env command c a

/-- Children of `cmd_profile`: `cmd_profile_active`, `cmd_resolution`,
`cmd_button`. -/
def profileSubs : List Cmd :=
  [ { name := "active", flags := flagsD, run := ratbag_cmd_profile_active },
    { name := "resolution", flags := flagsDP, run := ratbag_cmd_resolution },
    { name := "button", flags := flagsDP, run := ratbag_cmd_button } ]

/-- `ratbag_cmd_profile` (lines 1093-1136): when `strtod` consumes the
whole first token, select the profile by that explicit index
(`ERR_UNSUPPORTED` for a null handle), consume the token and re-read
`argv[0]` as the subcommand name; otherwise resolve the active profile
(`ERR_DEVICE` when none).  The chosen handle is stored into the context
before dispatching. -/
def ratbag_cmd_profile : Handler := fun env c a =>
  if a.len < 1 then some (ERR_USAGE, c)
  else
    match a.get 0 with
    | none => none
    | some command =>
      match strtodFull command with
      | some v =>
        match c.device with
        | none => none
        | some d =>
          match ratbag_device_get_profile_by_index d v with
          | none => some (ERR_UNSUPPORTED, c)
          | some pi =>
            let a1 := a.advance
            match a1.get 0 with
            | none => none
            | some command1 =>
              run_subcommand profileSubs env command1
                { c with profile := some pi, profAcq := c.profAcq + 1 } a1
      | none =>
        match ratbag_cmd_get_active_profile c.device with
        | none => none
        | some none => some (ERR_DEVICE, c)
        | some (some pi) =>
          run_subcommand profileSubs env command
            { c with profile := some pi, profAcq := c.profAcq + 1 } a

/-- The children of `top_level_commands` (lines 1152-1168), in their
static order. -/
def topSubs : List Cmd :=
  [ { name := "info", flags := flagsD, run := ratbag_cmd_info },
    { name := "list", flags := flags0, run := ratbag_cmd_list_supported_devices },
    { name := "change-button", flags := flagsDP, run := ratbag_cmd_change_button },
    { name := "switch-etekcity", flags := flagsDP, run := ratbag_cmd_switch_etekcity },
    { name := "button", flags := flagsDP, run := ratbag_cmd_button },
    { name := "resolution", flags := flagsDP, run := ratbag_cmd_resolution },
    { name := "profile", flags := flagsD, run := ratbag_cmd_profile },
    { name := "dpi", flags := flagsDPR, run := ratbag_cmd_resolution_dpi } ]

/-- The post-option-parsing portion of `main` (lines 1217-1235): with no
token left the result is `ERR_USAGE`; otherwise dispatch `argv[0]` over the
top-level command list with the zero-initialised options.  (Context
creation and option parsing are outside the modelled core, per spec
section 1.) -/
def mainRun (env : REnv) (toks : List String) : Option (Int × Ctx) :=
  match toks with
  | [] => some (ERR_USAGE, initialOptions)
  | command :: _ =>
    run_subcommand topSubs env command initialOptions
      { toks := toks, start := 0, len := toks.length }

/-- The unconditional releases at `main`'s `out:` label (lines 1236-1239):
one unref per context handle.  Modelled from the spec (sections 5-6):
releasing a reference-counted handle drops one owned reference; releasing a
null handle is a no-op, so each populated handle is released exactly once
and each unpopulated one zero times. -/
def mainReleases (c : Ctx) : Nat × Nat × Nat :=
  ( (if c.device.isSome then 1 else 0),
    (if c.profile.isSome then 1 else 0),
    (if c.resolution.isSome then 1 else 0) )

/-! Usage formatter: `usage_subcommand`, lines 84-123.

The formatter only reads the static name/args/help/children data of the
command structs, so it is modelled over a plain data tree.  A mutual
node/list inductive keeps the recursion structural. -/

mutual

/-- Static data of one `struct ratbag_cmd` as the usage formatter reads
it: name, optional args string, optional help string, children. -/
inductive UNode where
  | mk (nm : String) (args : Option String) (help : Option String) (subs : UList)

/-- The null-terminated `subcommands[]` array of a command struct. -/
inductive UList where
  | unil
  | ucons (u : UNode) (rest : UList)

end

/-- Build a `UList` from a list literal. -/
def ul : List UNode → UList
  | [] => UList.unil
  | u :: us => UList.ucons u (ul us)

/-- The name of a usage-tree node. -/
def UNode.nm : UNode → String
  | UNode.mk s _ _ _ => s

/-- The args string of a usage-tree node. -/
def UNode.args : UNode → Option String
  | UNode.mk _ a _ _ => a

/-- The help string of a usage-tree node. -/
def UNode.help : UNode → Option String
  | UNode.mk _ _ h _ => h

/-- The children of a usage-tree node. -/
def UNode.subs : UNode → UList
  | UNode.mk _ _ _ s => s

/-- The 41-character dot-fill string of the `printf` in
`usage_subcommand` (line 116). -/
def dotsLen : Nat := 41

/-- One printed usage row: the accumulated prefix, the child's name, the
per-node count after the floor (line 100-101: `if (count < 4) count = 4`),
and the number of fill dots actually printed: `count -= strlen(prefix)`
then `%.*s` on the 41-dot string, where a negative precision prints the
whole string. -/
structure URow where
  pfx : String
  rowNm : String
  floored : Int
  dots : Nat
deriving DecidableEq, Repr

/-- The row printed for child `sub` under accumulated prefix `pfx`
(lines 97-117). -/
def mkURow (pfx : String) (sub : UNode) : URow :=
  let count1 : Int := 40 - (sub.nm.length : Int) -
    (match sub.args with
     | some s => 1 + (s.length : Int)
     | none => 0)
  let floored : Int := if count1 < 4 then 4 else count1
  let count3 : Int := floored - (pfx.length : Int)
  { pfx := pfx, rowNm := sub.nm, floored := floored,
    dots := if count3 < 0 then dotsLen else min count3.toNat dotsLen }

mutual

/-- `usage_subcommand(cmd, prefix_in)`: build the per-child prefix
(`prefix_in` + the current node's name and args + a space), emit a row for
each child that has help text, and recurse into each child with the
extended prefix. -/
def usageRows : UNode → String → List URow
  | UNode.mk nm args _ subs, pfxIn =>
    let pfx := pfxIn ++ nm ++
      (match args with
       | some s => " " ++ s
       | none => "") ++ " "
    usageRowsList subs pfx

/-- The loop body of `usage_subcommand` over the child array. -/
def usageRowsList : UList → String → List URow
  | UList.unil, _ => []
  | UList.ucons sub rest, pfx =>
    (match sub.help with
     | some _ => [mkURow pfx sub]
     | none => []) ++ usageRows sub pfx ++ usageRowsList rest pfx

end

/-- `cmd_resolution_active_get` static data. -/
def uResActiveGet : UNode :=
  UNode.mk "get" none (some "Get the active resolution number") (ul [])

/-- `cmd_resolution_active_set` static data. -/
def uResActiveSet : UNode :=
  UNode.mk "set" (some "M") (some "Set the active resolution number") (ul [])

/-- `cmd_resolution_active` static data. -/
def uResActive : UNode :=
  UNode.mk "active" none none (ul [ uResActiveGet, uResActiveSet ])

/-- `cmd_resolution_dpi_get` static data. -/
def uResDpiGet : UNode :=
  UNode.mk "get" none (some "Get the resolution in dpi") (ul [])

/-- `cmd_resolution_dpi_set` static data. -/
def uResDpiSet : UNode :=
  UNode.mk "set" (some "<dpi>") (some "Set the resolution in dpi") (ul [])

/-- `cmd_resolution_dpi` static data. -/
def uResDpi : UNode :=
  UNode.mk "dpi" none none (ul [ uResDpiGet, uResDpiSet ])

/-- `cmd_resolution` static data. -/
def uResolution : UNode :=
  UNode.mk "resolution" (some "N") none (ul [ uResActive, uResDpi ])

/-- `cmd_profile_active_get` static data. -/
def uProfActiveGet : UNode :=
  UNode.mk "get" none (some "Get the active profile number") (ul [])

/-- `cmd_profile_active_set` static data. -/
def uProfActiveSet : UNode :=
  UNode.mk "set" (some "N") (some "Set the active profile number") (ul [])

/-- `cmd_profile_active` static data. -/
def uProfActive : UNode :=
  UNode.mk "active" none none (ul [ uProfActiveGet, uProfActiveSet ])

/-- `cmd_button` static data. -/
def uButton : UNode :=
  UNode.mk "button" (some "[...]") (some "Modify a button") (ul [])

/-- `cmd_profile` static data. -/
def uProfile : UNode :=
  UNode.mk "profile" (some "<idx>") none (ul [ uProfActive, uResolution, uButton ])

/-- `cmd_info` static data. -/
def uInfo : UNode :=
  UNode.mk "info" none (some "Show information about the device's capabilities") (ul [])

/-- `cmd_list` static data. -/
def uListCmd : UNode :=
  UNode.mk "list" none (some "List the available devices") (ul [])

/-- `cmd_change_button` static data. -/
def uChangeButton : UNode :=
  UNode.mk "change-button"
    (some "X <button|key|special|macro> <number|KEY_FOO|special|macro name:KEY_FOO,KEY_BAR,...>")
    (some "Remap button X to the given action in the active profile") (ul [])

/-- `cmd_switch_etekcity` static data. -/
def uSwitchEtekcity : UNode :=
  UNode.mk "switch-etekcity" none (some "Switch the Etekcity mouse active profile") (ul [])

/-- `top_level_commands` static data: the root node rendered by
`usage()` with the empty prefix. -/
def uTop : UNode :=
  UNode.mk "ratbag-command" none none
    (ul [ uInfo, uListCmd, uChangeButton, uSwitchEtekcity, uButton,
          uResolution, uProfile, uResDpi ])

/-! Invariant predicates. -/

/-- The two contexts agree on the three handle fields and the three
acquisition counters (the handler changed at most the button field, the
print log and the mutation log). -/
def coreEq (c c' : Ctx) : Prop :=
  c'.device = c.device ∧ c'.profile = c.profile ∧ c'.resolution = c.resolution ∧
  c'.devAcq = c.devAcq ∧ c'.profAcq = c.profAcq ∧ c'.resAcq = c.resAcq

/-- Well-formedness of the resolved context: the dependency chain
(resolution only with profile, profile only with device) and, for each
handle field, the acquisition counter equals the number of handles
currently stored (so a later single release per populated field balances
the acquisitions). -/
def WfC (c : Ctx) : Prop :=
  (c.profile.isSome → c.device.isSome) ∧
  (c.resolution.isSome → c.profile.isSome) ∧
  c.devAcq = (if c.device.isSome then 1 else 0) ∧
  c.profAcq = (if c.profile.isSome then 1 else 0) ∧
  c.resAcq = (if c.resolution.isSome then 1 else 0)

/-- A handler preserves context well-formedness on every defined run. -/
def HandlerWf (h : Handler) : Prop :=
  ∀ env c a rc c', WfC c → h env c a = some (rc, c') → WfC c'

/-- The property of a printed usage row checked for claim C9: the
per-node count is floored at 4, and whenever the accumulated prefix is
short enough (its length at most the floored count minus 4) the printed
dot-fill is at least 4. -/
def URowProp (r : URow) : Prop :=
  4 ≤ r.floored ∧ ((r.pfx.length : Int) + 4 ≤ r.floored → 4 ≤ r.dots)

/-! Concrete fixtures for witnesses and counterexamples. -/

/-- Eight unconfigured buttons. -/
def wButtons : List BState := List.replicate 8 { key := 0, actionType := 0 }

/-- Fixture profile 0: active, two resolutions (the active one at index 0
with 200 dpi, an inactive one at index 1 with 800 dpi). -/
def wProfile0 : Profile :=
  { active := true
    resolutions := [ { active := true, dpi := 200 }, { active := false, dpi := 800 } ]
    buttons := wButtons }

/-- Fixture profile 1: inactive, one active resolution of 400 dpi. -/
def wProfile1 : Profile :=
  { active := false
    resolutions := [ { active := true, dpi := 400 } ]
    buttons := wButtons }

/-- Fixture device: all capabilities, two profiles (indices 0 and 1). -/
def wDev : Device :=
  { capSwitchRes := true
    capSwitchProf := true
    capBtnKey := true
    capBtnMacros := true
    profiles := [ wProfile0, wProfile1 ] }

/-- Fixture device lacking the switchable-profile capability. -/
def wDevNoProf : Device :=
  { capSwitchRes := true
    capSwitchProf := false
    capBtnKey := true
    capBtnMacros := true
    profiles := [ wProfile0, wProfile1 ] }

/-- Fixture device with the switchable-profile capability, two profiles,
none of them flagged active. -/
def wDevNoActive : Device :=
  { capSwitchRes := true
    capSwitchProf := true
    capBtnKey := true
    capBtnMacros := true
    profiles := [ wProfile1, wProfile1 ] }

/-- Fixture environment: "/dev/x" opens `wDev`, no key name resolves, no
special action matches, every mutating collaborator call succeeds. -/
def wEnv : REnv :=
  { openDevice := fun p => if p = "/dev/x" then some wDev else none
    keyCode := fun s => 0
    specialAction := fun s => none
    mutRc := fun m => 0 }

/-- Argument window fixture for claim C4: visible tokens
`["info", "devA"]`. -/
def a4 : Args := { toks := [ "info", "devA" ], start := 0, len := 2 }

/-- Environment fixture for claim C4: only the path "devA" — the BACK
token of `a4` — opens a device. -/
def env4 : REnv :=
  { openDevice := fun p => if p = "devA" then some wDev else none
    keyCode := fun s => 0
    specialAction := fun s => none
    mutRc := fun m => 0 }

/-- The context produced by the successful device resolution of claim
C4's fixture. -/
def c4res : Ctx := { initialOptions with device := some wDev, devAcq := 1 }

/-- Argument window fixture with no visible tokens (for claim C7). -/
def a0 : Args := { toks := [], start := 0, len := 0 }

/-- Argument window fixture for claim C8: `3 key BOGUS`. -/
def a8 : Args := { toks := [ "3", "key", "BOGUS" ], start := 0, len := 3 }

/-- Context fixture holding the no-switchable-profile device (for the C10
witness). -/
def cNoProf : Ctx := { initialOptions with device := some wDevNoProf, devAcq := 1 }

/-- Context fixture holding the no-active-profile device (for the C10
witness). -/
def cNoActive : Ctx := { initialOptions with device := some wDevNoActive, devAcq := 1 }

/-- The final context of `dpi get /dev/x` on the fixture device: all three
handles resolved, one acquisition each, dpi 200 printed. -/
def wCtxDpi : Ctx :=
  { device := some wDev, profile := some 0, resolution := some 0, button := -1,
    devAcq := 1, profAcq := 1, resAcq := 1, prints := [ 200 ], muts := [] }

/-- A handler never changes an already-populated resolution field. -/
def KeepsRes (h : Handler) : Prop :=
  ∀ env c a rc c', c.resolution.isSome → h env c a = some (rc, c') →
    c'.resolution = c.resolution

/-- A handler never changes an already-populated profile field. -/
def KeepsProf (h : Handler) : Prop :=
  ∀ env c a rc c', c.profile.isSome → h env c a = some (rc, c') →
    c'.profile = c.profile

/-- Context fixture with device and active profile resolved (as
`ratbag_cmd_resolution` receives it after `fill_options` for the top-level
`resolution` node). -/
def cDevProf : Ctx :=
  { initialOptions with device := some wDev, devAcq := 1, profile := some 0, profAcq := 1 }

/-- Argument window for `resolution 1.5 dpi get /dev/x` after the device
path was consumed from the back and `resolution` was consumed from the
front. -/
def aRes15 : Args :=
  { toks := [ "resolution", "1.5", "dpi", "get", "/dev/x" ], start := 1, len := 3 }

/-- The context `resolution 1.5 dpi get` produces from `cDevProf`:
resolution 1 selected explicitly, its 800 dpi printed. -/
def cRes15 : Ctx :=
  { cDevProf with resolution := some 1, resAcq := 1, prints := [ 800 ] }

example : strtodFull "1.5" = some 1 := by decide
example : strtodFull "active" = none := by decide
example : tryParseFullInteger "1.5" = none := by decide
example : tryParseFullInteger "15" = some 15 := by decide
example : strtodFull "15" = some 15 := by decide
example : strtodFull "-1" = some (-1) := by decide
example : strtodFull "1e2" = some 100 := by decide
example : atoi "12x" = 12 := by decide
example : atoi "foo" = 0 := by decide
example : atoi "-3" = -3 := by decide

/-! Theorems. -/

/-- Helper: an unmatched subcommand name over any child list yields
`ERR_USAGE` with the context unchanged, and a crash-free dispatch otherwise
goes through `fill_options` and the matched child's handler. -/
theorem run_subcommand_nil (env : REnv) (command : String) (c : Ctx) (a : Args) :
    run_subcommand [] env command c a = some (ERR_USAGE, c) := rfl

/-- C7: For every command requiring a device, if no token remains to serve
as the device path (or the path fails to open), the resolution step fails
with `ERR_DEVICE` (exit code 3), not `ERR_USAGE` (exit code 2): the
`*argc == 0` branch of `ratbag_cmd_device_from_arg` returns a null device
and `fill_options` maps that to `ERR_DEVICE`. -/
theorem C7_missing_device_is_device_error (env : REnv) (c : Ctx) (f : CmdFlags) (a : Args)
    (hneed : (f.needDevice || f.needProfile || f.needResolution) = true)
    (hdev : c.device = none) :
    (a.len = 0 → fill_options env c f a = some (ERR_DEVICE, c, a)) ∧
    (∀ p, a.get (a.len - 1) = some p → env.openDevice p = none →
      fill_options env c f a = some (ERR_DEVICE, c, a)) ∧
    ERR_DEVICE ≠ ERR_USAGE := by
  refine ⟨?_, ?_, by decide⟩
  · intro hlen
    simp [fill_options, hneed, hdev, ratbag_cmd_device_from_arg, hlen]
  · intro p hp hopen
    by_cases hlen : a.len = 0
    · simp [fill_options, hneed, hdev, ratbag_cmd_device_from_arg, hlen]
    · simp [fill_options, hneed, hdev, ratbag_cmd_device_from_arg, hlen, hp, hopen]

/-- C7 witness: the device-requiring `info` flags with an empty token
window and an unresolved device yield `ERR_DEVICE`. -/
theorem C7_missing_device_is_device_error_witness :
    fill_options wEnv initialOptions flagsD a0 = some (ERR_DEVICE, initialOptions, a0) :=
  (C7_missing_device_is_device_error wEnv initialOptions flagsD a0 (by decide) (by decide)).1
    (by decide)

/-- C8: a `change-button <idx> key <name>` invocation whose key name
resolves to the null/zero key code returns `ERR_USAGE` with the context —
including the mutation log — unchanged: no mutating collaborator call is
attempted. -/
theorem C8_null_key_is_usage_error (env : REnv) (c : Ctx) (a : Args) (s0 s2 : String)
    (hlen : a.len = 3) (h0 : a.get 0 = some s0) (h1 : a.get 1 = some "key")
    (h2 : a.get 2 = some s2) (hk : env.keyCode s2 = 0) :
    ratbag_cmd_change_button env c a = some (ERR_USAGE, c) := by
  simp [ratbag_cmd_change_button, hlen, h0, h1, h2, hk]

/-- C8 witness: `change-button 3 key BOGUS` under an environment where no
key name resolves returns `ERR_USAGE` with the context unchanged. -/
theorem C8_null_key_is_usage_error_witness :
    ratbag_cmd_change_button wEnv initialOptions a8 = some (ERR_USAGE, initialOptions) :=
  C8_null_key_is_usage_error wEnv initialOptions a8 "3" "BOGUS"
    (by decide) (by decide) (by decide) (by decide) (by decide)

/-- C1: evaluation at the failing input.  On the two-profile fixture
device, `profile active set 2` — the index equal to the profile count,
which is out of the device's 0-based range — passes the code's
`index > num_profiles` check, fetches a null profile handle and
dereferences it in `ratbag_profile_is_active`: a crash (`none`), not
`ERR_UNSUPPORTED`.  An index strictly greater than the count does return
`ERR_UNSUPPORTED`. -/
theorem C1_index_at_count_crashes :
    wDev.profiles.length = 2 ∧
    mainRun wEnv [ "profile", "active", "set", "2", "/dev/x" ] = none ∧
    (mainRun wEnv [ "profile", "active", "set", "3", "/dev/x" ]).map (fun p => p.1) =
      some ERR_UNSUPPORTED := by
  refine ⟨by decide, by decide, by decide⟩

/-- C2: evaluation at the failing input.  `str_to_macro` on an argument
with unrecognized first character 'x' returns 0 and produces zero events
(the macro stays all-zero), and the `change-button 3 macro x` invocation is
NOT rejected with `ERR_USAGE`: it proceeds to the mutating collaborator
calls (`set_macro` with a null name, `write_macro`, `set_active`) and
returns SUCCESS when they succeed. -/
theorem C2_unrecognized_macro_not_rejected :
    (strToMacro (some "foo") macro0).2.events.takeWhile (fun e => e.t ≠ MEvType.evNone) =
      fooEvents ∧
    (strToMacro (some "bar") macro0).2.events.takeWhile (fun e => e.t ≠ MEvType.evNone) =
      barEvents ∧
    strToMacro (some "x") macro0 = (0, macro0) ∧
    macro0.events.takeWhile (fun e => e.t ≠ MEvType.evNone) = [] ∧
    (mainRun wEnv [ "change-button", "3", "macro", "x", "/dev/x" ]).map
      (fun p => (p.1, p.2.muts)) =
      some (SUCCESS, [ Mut.setMacro 3 none, Mut.writeMacro 3, Mut.setActiveProfile 0 ]) ∧
    SUCCESS ≠ ERR_USAGE := by
  refine ⟨by decide, by decide, by decide, by decide, by decide, by decide⟩

/-- C3 counterexample: the token "1.5" does not parse fully as an integer,
yet `resolution 1.5 dpi get` treats it as an explicit index: it selects
resolution 1 (whose dpi is 800) even though the active resolution is index
0 (dpi 200) — the code's full-parse check uses `strtod`, which accepts any
decimal floating-point literal, not only integers. -/
theorem C3_float_token_selects_index :
    tryParseFullInteger "1.5" = none ∧
    wProfile0.resolutions.findIdx? (fun r => r.active) = some 0 ∧
    (mainRun wEnv [ "resolution", "1.5", "dpi", "get", "/dev/x" ]).map
      (fun p => (p.1, p.2.resolution, p.2.prints)) = some (SUCCESS, some 1, [ 800 ]) := by
  refine ⟨by decide, by decide, by decide⟩

/-- C9 counterexample: not every printed usage row keeps at least the
4-dot minimum fill — on the actual command tree the floor is applied
before the accumulated prefix length is subtracted, and for example the
`ratbag-command resolution N active set` row prints 0 dots. -/
theorem C9_nested_row_below_minimum : ¬ (∀ r ∈ usageRows uTop "", 4 ≤ r.dots) := by decide

/-- `coreEq` is reflexive. -/
theorem coreEq_refl (c : Ctx) : coreEq c c := ⟨rfl, rfl, rfl, rfl, rfl, rfl⟩

/-- `coreEq` chains. -/
theorem coreEq_trans {ca cb cc : Ctx} (hab : coreEq ca cb) (hbc : coreEq cb cc) :
    coreEq ca cc := by
  unfold coreEq at hab hbc ⊢
  refine ⟨?_, ?_, ?_, ?_, ?_, ?_⟩ <;> simp_all

/-- Logging a mutation keeps the context core. -/
theorem coreEq_addMut (c : Ctx) (m : Mut) : coreEq c (addMut c m) := by
  simp [coreEq, addMut]

/-- Logging a print keeps the context core. -/
theorem coreEq_addPrint (c : Ctx) (n : Int) : coreEq c (addPrint c n) := by
  simp [coreEq, addPrint]

/-- Projection: logging a mutation keeps the device field. -/
@[simp] theorem addMut_device (c : Ctx) (m : Mut) : (addMut c m).device = c.device := rfl

/-- Projection: logging a mutation keeps the profile field. -/
@[simp] theorem addMut_profile (c : Ctx) (m : Mut) : (addMut c m).profile = c.profile := rfl

/-- Projection: logging a mutation keeps the resolution field. -/
@[simp] theorem addMut_resolution (c : Ctx) (m : Mut) : (addMut c m).resolution = c.resolution := rfl

/-- Projection: logging a mutation keeps the device counter. -/
@[simp] theorem addMut_devAcq (c : Ctx) (m : Mut) : (addMut c m).devAcq = c.devAcq := rfl

/-- Projection: logging a mutation keeps the profile counter. -/
@[simp] theorem addMut_profAcq (c : Ctx) (m : Mut) : (addMut c m).profAcq = c.profAcq := rfl

/-- Projection: logging a mutation keeps the resolution counter. -/
@[simp] theorem addMut_resAcq (c : Ctx) (m : Mut) : (addMut c m).resAcq = c.resAcq := rfl

/-- Projection: logging a print keeps the device field. -/
@[simp] theorem addPrint_device (c : Ctx) (n : Int) : (addPrint c n).device = c.device := rfl

/-- Projection: logging a print keeps the profile field. -/
@[simp] theorem addPrint_profile (c : Ctx) (n : Int) : (addPrint c n).profile = c.profile := rfl

/-- Projection: logging a print keeps the resolution field. -/
@[simp] theorem addPrint_resolution (c : Ctx) (n : Int) : (addPrint c n).resolution = c.resolution := rfl

/-- Projection: logging a print keeps the device counter. -/
@[simp] theorem addPrint_devAcq (c : Ctx) (n : Int) : (addPrint c n).devAcq = c.devAcq := rfl

/-- Projection: logging a print keeps the profile counter. -/
@[simp] theorem addPrint_profAcq (c : Ctx) (n : Int) : (addPrint c n).profAcq = c.profAcq := rfl

/-- Projection: logging a print keeps the resolution counter. -/
@[simp] theorem addPrint_resAcq (c : Ctx) (n : Int) : (addPrint c n).resAcq = c.resAcq := rfl

/-- The macro-event transfer loop keeps the whole context core. -/
theorem addMacroEvents_coreEq (bIdx : Nat) :
    ∀ (l : List MEv) (c : Ctx) (i : Nat), coreEq c (addMacroEvents bIdx c i l)
  | [], c, _ => coreEq_refl c
  | e :: l, c, i => by
    unfold addMacroEvents
    split
    · exact coreEq_refl c
    · exact coreEq_trans (coreEq_addMut c _) (addMacroEvents_coreEq bIdx l _ (i + 1))

/-- Projection: the macro-event loop keeps the device field. -/
@[simp] theorem addMacroEvents_device (bIdx : Nat) (l : List MEv) (c : Ctx) (i : Nat) :
    (addMacroEvents bIdx c i l).device = c.device :=
  (addMacroEvents_coreEq bIdx l c i).1

/-- Projection: the macro-event loop keeps the profile field. -/
@[simp] theorem addMacroEvents_profile (bIdx : Nat) (l : List MEv) (c : Ctx) (i : Nat) :
    (addMacroEvents bIdx c i l).profile = c.profile :=
  (addMacroEvents_coreEq bIdx l c i).2.1

/-- Projection: the macro-event loop keeps the resolution field. -/
@[simp] theorem addMacroEvents_resolution (bIdx : Nat) (l : List MEv) (c : Ctx) (i : Nat) :
    (addMacroEvents bIdx c i l).resolution = c.resolution :=
  (addMacroEvents_coreEq bIdx l c i).2.2.1

/-- Projection: the macro-event loop keeps the device counter. -/
@[simp] theorem addMacroEvents_devAcq (bIdx : Nat) (l : List MEv) (c : Ctx) (i : Nat) :
    (addMacroEvents bIdx c i l).devAcq = c.devAcq :=
  (addMacroEvents_coreEq bIdx l c i).2.2.2.1

/-- Projection: the macro-event loop keeps the profile counter. -/
@[simp] theorem addMacroEvents_profAcq (bIdx : Nat) (l : List MEv) (c : Ctx) (i : Nat) :
    (addMacroEvents bIdx c i l).profAcq = c.profAcq :=
  (addMacroEvents_coreEq bIdx l c i).2.2.2.2.1

/-- Projection: the macro-event loop keeps the resolution counter. -/
@[simp] theorem addMacroEvents_resAcq (bIdx : Nat) (l : List MEv) (c : Ctx) (i : Nat) :
    (addMacroEvents bIdx c i l).resAcq = c.resAcq :=
  (addMacroEvents_coreEq bIdx l c i).2.2.2.2.2

/-- `ratbag_cmd_info` keeps the context core. -/
theorem info_coreEq (env : REnv) (c : Ctx) (a : Args) (rc : Int) (c' : Ctx)
    (h : ratbag_cmd_info env c a = some (rc, c')) : coreEq c c' := by
  unfold ratbag_cmd_info at h
  repeat' split at h
  all_goals simp_all [coreEq]

/-- `ratbag_cmd_list_supported_devices` keeps the context core. -/
theorem list_coreEq (env : REnv) (c : Ctx) (a : Args) (rc : Int) (c' : Ctx)
    (h : ratbag_cmd_list_supported_devices env c a = some (rc, c')) : coreEq c c' := by
  unfold ratbag_cmd_list_supported_devices at h
  repeat' split at h
  all_goals simp_all [coreEq]

/-- The action-application tail of `change-button` keeps the context core
(it only appends to the mutation log). -/
theorem change_button_apply_coreEq (env : REnv) (c : Ctx) (bi : Int) (act : BAct)
    (rc : Int) (c' : Ctx) (h : change_button_apply env c bi act = some (rc, c')) :
    coreEq c c' := by
  cases act <;>
    (unfold change_button_apply at h
     repeat' split at h
     all_goals try simp_all [coreEq]
     all_goals (repeat' split at h)
     all_goals try simp_all [coreEq]
     all_goals (obtain ⟨hrc2, hctx2⟩ := h; subst hctx2; simp_all))

/-- `ratbag_cmd_change_button` keeps the context core: every path either
rejects before touching the context or goes through the action-application
tail. -/
theorem change_button_coreEq (env : REnv) (c : Ctx) (a : Args) (rc : Int) (c' : Ctx)
    (h : ratbag_cmd_change_button env c a = some (rc, c')) : coreEq c c' := by
  unfold ratbag_cmd_change_button at h
  repeat' split at h
  all_goals try (exact change_button_apply_coreEq _ _ _ _ _ _ h)
  all_goals try (simp only [ne_eq] at h; repeat' split at h)
  all_goals
    first
    | exact change_button_apply_coreEq _ _ _ _ _ _ h
    | simp_all [coreEq]

/-- `ratbag_cmd_switch_etekcity` keeps the context core. -/
theorem switch_etekcity_coreEq (env : REnv) (c : Ctx) (a : Args) (rc : Int) (c' : Ctx)
    (h : ratbag_cmd_switch_etekcity env c a = some (rc, c')) : coreEq c c' := by
  unfold ratbag_cmd_switch_etekcity at h
  repeat' split at h
  all_goals try (simp only [ne_eq] at h; repeat' split at h)
  all_goals try simp_all [coreEq]
  all_goals (obtain ⟨hrc2, hctx2⟩ := h; subst hctx2; simp_all)

/-- `ratbag_cmd_resolution_active_get` keeps the context core. -/
theorem res_active_get_coreEq (env : REnv) (c : Ctx) (a : Args) (rc : Int) (c' : Ctx)
    (h : ratbag_cmd_resolution_active_get env c a = some (rc, c')) : coreEq c c' := by
  unfold ratbag_cmd_resolution_active_get at h
  simp_all [coreEq]

/-- `ratbag_cmd_resolution_active_set` keeps the context core. -/
theorem res_active_set_coreEq (env : REnv) (c : Ctx) (a : Args) (rc : Int) (c' : Ctx)
    (h : ratbag_cmd_resolution_active_set env c a = some (rc, c')) : coreEq c c' := by
  unfold ratbag_cmd_resolution_active_set at h
  simp_all [coreEq]

/-- `ratbag_cmd_resolution_dpi_get` keeps the context core. -/
theorem dpi_get_coreEq (env : REnv) (c : Ctx) (a : Args) (rc : Int) (c' : Ctx)
    (h : ratbag_cmd_resolution_dpi_get env c a = some (rc, c')) : coreEq c c' := by
  unfold ratbag_cmd_resolution_dpi_get at h
  repeat' split at h
  all_goals try (simp only [ne_eq] at h; repeat' split at h)
  all_goals try simp_all [coreEq]
  all_goals (obtain ⟨hrc2, hctx2⟩ := h; subst hctx2; simp_all)

/-- `ratbag_cmd_resolution_dpi_set` keeps the context core. -/
theorem dpi_set_coreEq (env : REnv) (c : Ctx) (a : Args) (rc : Int) (c' : Ctx)
    (h : ratbag_cmd_resolution_dpi_set env c a = some (rc, c')) : coreEq c c' := by
  unfold ratbag_cmd_resolution_dpi_set at h
  repeat' split at h
  all_goals try (simp only [ne_eq] at h; repeat' split at h)
  all_goals try simp_all [coreEq]
  all_goals (obtain ⟨hrc2, hctx2⟩ := h; subst hctx2; simp_all)

/-- `ratbag_cmd_profile_active_get` keeps the context core. -/
theorem profile_active_get_coreEq (env : REnv) (c : Ctx) (a : Args) (rc : Int) (c' : Ctx)
    (h : ratbag_cmd_profile_active_get env c a = some (rc, c')) : coreEq c c' := by
  unfold ratbag_cmd_profile_active_get at h
  repeat' split at h
  all_goals try (simp only [ne_eq] at h; repeat' split at h)
  all_goals try simp_all [coreEq]
  all_goals (obtain ⟨hrc2, hctx2⟩ := h; subst hctx2; simp_all)

/-- `ratbag_cmd_profile_active_set` keeps the context core. -/
theorem profile_active_set_coreEq (env : REnv) (c : Ctx) (a : Args) (rc : Int) (c' : Ctx)
    (h : ratbag_cmd_profile_active_set env c a = some (rc, c')) : coreEq c c' := by
  unfold ratbag_cmd_profile_active_set at h
  repeat' split at h
  all_goals try (simp only [ne_eq] at h; repeat' split at h)
  all_goals try simp_all [coreEq]
  all_goals (obtain ⟨hrc2, hctx2⟩ := h; subst hctx2; simp_all)

/-- `ratbag_cmd_button` keeps the context core: it changes at most the
button field and always fails with `ERR_USAGE` over its empty child
list. -/
theorem button_coreEq (env : REnv) (c : Ctx) (a : Args) (rc : Int) (c' : Ctx)
    (h : ratbag_cmd_button env c a = some (rc, c')) : coreEq c c' := by
  unfold ratbag_cmd_button at h
  repeat' split at h
  all_goals try simp_all [coreEq, run_subcommand, List.find?]
  all_goals (obtain ⟨hrc2, hctx2⟩ := h; subst hctx2; simp_all)

/-- The resolution block of `fill_options` never touches the argument
window, the device or the profile, and keeps an already-populated
resolution. -/
theorem fill_res_keep (env : REnv) (c : Ctx) (f : CmdFlags) (a : Args) (rc : Int)
    (c' : Ctx) (a' : Args) (h : fill_options_res env c f a = some (rc, c', a')) :
    a' = a ∧ c'.device = c.device ∧ c'.profile = c.profile ∧
      (c.resolution.isSome = true → c'.resolution = c.resolution) := by
  unfold fill_options_res at h
  repeat' split at h
  all_goals try simp_all
  all_goals (obtain ⟨hrc2, hctx2, ha2⟩ := h; subst hctx2; simp_all)

/-- The profile and resolution blocks of `fill_options` never touch the
argument window or the device, keep an already-populated profile, and keep
an already-populated resolution. -/
theorem fill_prof_keep (env : REnv) (c : Ctx) (f : CmdFlags) (a : Args) (rc : Int)
    (c' : Ctx) (a' : Args) (h : fill_options_prof env c f a = some (rc, c', a')) :
    a' = a ∧ c'.device = c.device ∧
      (c.profile.isSome = true → c'.profile = c.profile) ∧
      (c.resolution.isSome = true → c'.resolution = c.resolution) := by
  unfold fill_options_prof at h
  repeat' split at h
  · exact absurd h (by simp)
  · simp_all
  · have hk := fill_res_keep _ _ _ _ _ _ _ h
    simp_all
  · have hk := fill_res_keep _ _ _ _ _ _ _ h
    simp_all

/-- Inversion of `ratbag_cmd_device_from_arg`: either the device is null
and the argument window untouched (missing path or failed open), or the
LAST visible token was opened successfully and consumed from the back. -/
theorem device_from_arg_inv (env : REnv) (a : Args) (r : Option Device × Args)
    (h : ratbag_cmd_device_from_arg env a = some r) :
    r = (none, a) ∨
    (∃ p dv, 1 ≤ a.len ∧ a.get (a.len - 1) = some p ∧ env.openDevice p = some dv ∧
      r = (some dv, a.dropDevTok)) := by
  unfold ratbag_cmd_device_from_arg at h
  repeat' split at h
  · left; simp_all
  · exact absurd h (by simp)
  · left; simp_all
  · right
    refine ⟨_, _, by omega, by assumption, by assumption, by simp_all⟩

/-- C4 amended: when a device is required and not yet cached,
`fill_options` either fails with `ERR_DEVICE` leaving the window untouched,
or consumes exactly one token — the LAST visible token, taken from the
back (`path = argv[*argc - 1]; (*argc)--`) — as the device path; when the
device is cached or not required, no token is consumed. -/
theorem C4_device_token_from_back (env : REnv) (c : Ctx) (f : CmdFlags) (a : Args)
    (rc : Int) (c' : Ctx) (a' : Args) (h : fill_options env c f a = some (rc, c', a')) :
    (((f.needDevice || f.needProfile || f.needResolution) && c.device.isNone) = true →
      (rc = ERR_DEVICE ∧ c'.device = none ∧ a' = a) ∨
      (∃ p dv, 1 ≤ a.len ∧ a.get (a.len - 1) = some p ∧ env.openDevice p = some dv ∧
        c'.device = some dv ∧ a' = a.dropDevTok)) ∧
    (((f.needDevice || f.needProfile || f.needResolution) && c.device.isNone) = false →
      a' = a) := by
  unfold fill_options at h
  cases hguard : ((f.needDevice || f.needProfile || f.needResolution) && c.device.isNone) with
  | false =>
    rw [hguard] at h
    simp only [Bool.false_eq_true, if_false] at h
    have hk := fill_prof_keep _ _ _ _ _ _ _ h
    exact ⟨fun hg => absurd hg (by simp [hguard]), fun _ => hk.1⟩
  | true =>
    rw [hguard] at h
    simp only [if_true] at h
    refine ⟨fun _ => ?_, fun hg => ?_⟩
    · cases hda : ratbag_cmd_device_from_arg env a with
      | none => rw [hda] at h; cases h
      | some r =>
        rw [hda] at h
        rcases device_from_arg_inv env a r hda with hr | ⟨p, dv, hlen, hget, hopen, hr⟩
        · subst hr
          left
          have hdev : c.device = none := by
            have h2 := hguard
            simp only [Bool.and_eq_true] at h2
            simpa [Option.isNone_iff_eq_none] using h2.2
          simp at h
          refine ⟨?_, ?_, ?_⟩ <;> simp_all
        · subst hr
          have hk := fill_prof_keep _ _ _ _ _ _ _ h
          right
          refine ⟨p, dv, hlen, hget, hopen, ?_, hk.1⟩
          rw [hk.2.1]
    · exact absurd hg (by simp [hguard])

/-- C4 counterexample: with visible tokens `["info", "devA"]` and a device
required, the token consumed as the device path is "devA" — the BACK
token — not the front one: the front token "info" (which does not even
open) is still visible afterwards.  The claim's front-consumption reading
would have consumed "info" and left `["devA"]`. -/
theorem C4_front_token_not_consumed :
    env4.openDevice "info" = none ∧
    env4.openDevice "devA" = some wDev ∧
    fill_options env4 initialOptions flagsD a4 = some (SUCCESS, c4res, a4.dropDevTok) ∧
    (a4.dropDevTok).visible = [ "info" ] := by
  refine ⟨by decide, by decide, by decide, by decide⟩

/-- C4 amended witness: on the concrete fixture the successful branch of
the amended statement holds — the back token "devA" was opened and
consumed. -/
theorem C4_device_token_from_back_witness :
    (SUCCESS = ERR_DEVICE ∧ c4res.device = none ∧ a4.dropDevTok = a4) ∨
    (∃ p dv, 1 ≤ a4.len ∧ a4.get (a4.len - 1) = some p ∧ env4.openDevice p = some dv ∧
      c4res.device = some dv ∧ a4.dropDevTok = a4.dropDevTok) :=
  (C4_device_token_from_back env4 initialOptions flagsD a4 SUCCESS c4res a4.dropDevTok
    (by decide)).1 (by decide)

/-- C10: `profile active get` returns SUCCESS and prints index 0 — without
consulting any profile's active flag (the device's profile list, including
its flags, is arbitrary in those branches) — whenever the device lacks the
switchable-profile capability or reports at most one profile; with the
capability, more than one profile and none flagged active it returns
`ERR_DEVICE` and prints nothing. -/
theorem C10_profile_active_get_behaviour (env : REnv) (c : Ctx) (a : Args) (d : Device)
    (hd : c.device = some d) :
    ((d.capSwitchProf = false ∨ d.profiles.length ≤ 1) →
      ratbag_cmd_profile_active_get env c a = some (SUCCESS, addPrint c 0)) ∧
    (d.capSwitchProf = true → 1 < d.profiles.length →
      (∀ p ∈ d.profiles, p.active = false) →
      ratbag_cmd_profile_active_get env c a = some (ERR_DEVICE, c)) := by
  constructor
  · rintro (hcap | hle)
    · simp [ratbag_cmd_profile_active_get, hd, hcap]
    · by_cases hcap : d.capSwitchProf
      · simp [ratbag_cmd_profile_active_get, hd, hcap, hle]
      · simp [ratbag_cmd_profile_active_get, hd, hcap]
  · intro hcap hlen hall
    have hfind : d.profiles.findIdx? (fun p => p.active) = none :=
      List.findIdx?_eq_none_iff.mpr hall
    have hnle : ¬ d.profiles.length ≤ 1 := by omega
    simp [ratbag_cmd_profile_active_get, hd, hcap, hnle, hfind]

/-- C10 witness: on a device without the switchable-profile capability the
command prints 0 and succeeds; on a two-profile device with no active
profile it returns `ERR_DEVICE`. -/
theorem C10_profile_active_get_behaviour_witness :
    ratbag_cmd_profile_active_get wEnv cNoProf a0 = some (SUCCESS, addPrint cNoProf 0) ∧
    ratbag_cmd_profile_active_get wEnv cNoActive a0 = some (ERR_DEVICE, cNoActive) :=
  ⟨(C10_profile_active_get_behaviour wEnv cNoProf a0 wDevNoProf (by decide)).1
      (Or.inl (by decide)),
    (C10_profile_active_get_behaviour wEnv cNoActive a0 wDevNoActive (by decide)).2
      (by decide) (by decide) (by decide)⟩

/-- A core-preserving handler changes neither an already-populated
resolution nor an already-populated profile. -/
theorem keeps_of_coreEq {h : Handler}
    (hc : ∀ env c a rc c', h env c a = some (rc, c') → coreEq c c') :
    KeepsRes h ∧ KeepsProf h :=
  ⟨fun env c a rc c' _ hr => (hc env c a rc c' hr).2.2.1,
    fun env c a rc c' _ hr => (hc env c a rc c' hr).2.1⟩

/-- `fill_options` keeps an already-populated profile and an
already-populated resolution (it only fills missing fields). -/
theorem fill_keep_all (env : REnv) (c : Ctx) (f : CmdFlags) (a : Args) (rc : Int)
    (c' : Ctx) (a' : Args) (h : fill_options env c f a = some (rc, c', a')) :
    (c.profile.isSome = true → c'.profile = c.profile) ∧
    (c.resolution.isSome = true → c'.resolution = c.resolution) := by
  unfold fill_options at h
  split at h
  · cases hda : ratbag_cmd_device_from_arg env a with
    | none => rw [hda] at h; cases h
    | some r =>
      rw [hda] at h
      obtain ⟨dv, a1⟩ := r
      cases dv with
      | none =>
        simp at h
        obtain ⟨h1, h2, h3⟩ := h
        constructor <;> intro hx <;> rw [← h2]
      | some d =>
        have hk := fill_prof_keep _ _ _ _ _ _ _ h
        exact ⟨fun hx => hk.2.2.1 hx, fun hx => hk.2.2.2 hx⟩
  · have hk := fill_prof_keep _ _ _ _ _ _ _ h
    exact ⟨fun hx => hk.2.2.1 hx, fun hx => hk.2.2.2 hx⟩

/-- A subcommand dispatch over handlers that keep a populated resolution
field itself keeps a populated resolution field. -/
theorem run_keepsRes (subs : List Cmd) (hs : ∀ s ∈ subs, KeepsRes s.run)
    (env : REnv) (command : String) (c : Ctx) (a : Args) (rc : Int) (c' : Ctx)
    (hres : c.resolution.isSome = true)
    (h : run_subcommand subs env command c a = some (rc, c')) :
    c'.resolution = c.resolution := by
  unfold run_subcommand at h
  cases hfind : List.find? (fun s => s.name == command) subs with
  | none => rw [hfind] at h; simp at h; rw [← h.2]
  | some sub =>
    rw [hfind] at h
    dsimp only at h
    have hmem := List.mem_of_find?_eq_some hfind
    cases hfill : fill_options env c sub.flags a with
    | none => rw [hfill] at h; cases h
    | some t =>
      obtain ⟨rc1, c1, a1⟩ := t
      rw [hfill] at h
      dsimp only at h
      have hk := (fill_keep_all _ _ _ _ _ _ _ hfill).2 hres
      split at h
      · simp at h; rw [← h.2, hk]
      · have h1 : c1.resolution.isSome = true := by rw [hk]; exact hres
        rw [hs sub hmem env c1 a1.advance rc c' h1 h, hk]

/-- A subcommand dispatch over handlers that keep a populated profile
field itself keeps a populated profile field. -/
theorem run_keepsProf (subs : List Cmd) (hs : ∀ s ∈ subs, KeepsProf s.run)
    (env : REnv) (command : String) (c : Ctx) (a : Args) (rc : Int) (c' : Ctx)
    (hprof : c.profile.isSome = true)
    (h : run_subcommand subs env command c a = some (rc, c')) :
    c'.profile = c.profile := by
  unfold run_subcommand at h
  cases hfind : List.find? (fun s => s.name == command) subs with
  | none => rw [hfind] at h; simp at h; rw [← h.2]
  | some sub =>
    rw [hfind] at h
    dsimp only at h
    have hmem := List.mem_of_find?_eq_some hfind
    cases hfill : fill_options env c sub.flags a with
    | none => rw [hfill] at h; cases h
    | some t =>
      obtain ⟨rc1, c1, a1⟩ := t
      rw [hfill] at h
      dsimp only at h
      have hk := (fill_keep_all _ _ _ _ _ _ _ hfill).1 hprof
      split at h
      · simp at h; rw [← h.2, hk]
      · have h1 : c1.profile.isSome = true := by rw [hk]; exact hprof
        rw [hs sub hmem env c1 a1.advance rc c' h1 h, hk]

/-- The active get/set leaves keep populated resolution and profile
fields. -/
theorem profileActiveSubs_keeps :
    ∀ s ∈ profileActiveSubs, KeepsRes s.run ∧ KeepsProf s.run := by
  intro s hs
  simp [profileActiveSubs] at hs
  rcases hs with h | h <;> subst h
  · exact keeps_of_coreEq profile_active_get_coreEq
  · exact keeps_of_coreEq profile_active_set_coreEq

/-- The resolution-active get/set leaves keep populated resolution and
profile fields. -/
theorem resolutionActiveSubs_keeps :
    ∀ s ∈ resolutionActiveSubs, KeepsRes s.run ∧ KeepsProf s.run := by
  intro s hs
  simp [resolutionActiveSubs] at hs
  rcases hs with h | h <;> subst h
  · exact keeps_of_coreEq res_active_get_coreEq
  · exact keeps_of_coreEq res_active_set_coreEq

/-- The dpi get/set leaves keep populated resolution and profile
fields. -/
theorem resolutionDpiSubs_keeps :
    ∀ s ∈ resolutionDpiSubs, KeepsRes s.run ∧ KeepsProf s.run := by
  intro s hs
  simp [resolutionDpiSubs] at hs
  rcases hs with h | h <;> subst h
  · exact keeps_of_coreEq dpi_get_coreEq
  · exact keeps_of_coreEq dpi_set_coreEq

/-- `ratbag_cmd_profile_active` keeps populated resolution and profile
fields. -/
theorem profile_active_keeps :
    KeepsRes ratbag_cmd_profile_active ∧ KeepsProf ratbag_cmd_profile_active := by
  constructor
  · intro env c a rc c' hres h
    unfold ratbag_cmd_profile_active at h
    repeat' split at h
    · simp at h; rw [← h.2]
    · cases h
    · exact run_keepsRes _ (fun s hs => (profileActiveSubs_keeps s hs).1) _ _ _ _ _ _ hres h
  · intro env c a rc c' hprof h
    unfold ratbag_cmd_profile_active at h
    repeat' split at h
    · simp at h; rw [← h.2]
    · cases h
    · exact run_keepsProf _ (fun s hs => (profileActiveSubs_keeps s hs).2) _ _ _ _ _ _ hprof h

/-- `ratbag_cmd_resolution_active` keeps populated resolution and profile
fields. -/
theorem resolution_active_keeps :
    KeepsRes ratbag_cmd_resolution_active ∧ KeepsProf ratbag_cmd_resolution_active := by
  constructor
  · intro env c a rc c' hres h
    unfold ratbag_cmd_resolution_active at h
    repeat' split at h
    · simp at h; rw [← h.2]
    · cases h
    · exact run_keepsRes _ (fun s hs => (resolutionActiveSubs_keeps s hs).1) _ _ _ _ _ _ hres h
  · intro env c a rc c' hprof h
    unfold ratbag_cmd_resolution_active at h
    repeat' split at h
    · simp at h; rw [← h.2]
    · cases h
    · exact run_keepsProf _ (fun s hs => (resolutionActiveSubs_keeps s hs).2) _ _ _ _ _ _ hprof h

/-- `ratbag_cmd_resolution_dpi` keeps populated resolution and profile
fields. -/
theorem resolution_dpi_keeps :
    KeepsRes ratbag_cmd_resolution_dpi ∧ KeepsProf ratbag_cmd_resolution_dpi := by
  constructor
  · intro env c a rc c' hres h
    unfold ratbag_cmd_resolution_dpi at h
    repeat' split at h
    · simp at h; rw [← h.2]
    · cases h
    · exact run_keepsRes _ (fun s hs => (resolutionDpiSubs_keeps s hs).1) _ _ _ _ _ _ hres h
  · intro env c a rc c' hprof h
    unfold ratbag_cmd_resolution_dpi at h
    repeat' split at h
    · simp at h; rw [← h.2]
    · cases h
    · exact run_keepsProf _ (fun s hs => (resolutionDpiSubs_keeps s hs).2) _ _ _ _ _ _ hprof h

/-- The children of the `resolution` node keep populated resolution and
profile fields. -/
theorem resolutionSubs_keeps :
    ∀ s ∈ resolutionSubs, KeepsRes s.run ∧ KeepsProf s.run := by
  intro s hs
  simp [resolutionSubs] at hs
  rcases hs with h | h <;> subst h
  · exact resolution_active_keeps
  · exact resolution_dpi_keeps

/-- `ratbag_cmd_resolution` keeps a populated profile field (it writes
only the resolution field before dispatching). -/
theorem cmd_resolution_keepsProf : KeepsProf ratbag_cmd_resolution := by
  intro env c a rc c' hprof h
  unfold ratbag_cmd_resolution at h
  repeat' split at h
  all_goals try (simp only [ne_eq] at h; repeat' split at h)
  all_goals try (cases h)
  all_goals try rfl
  all_goals
    (have h2 := run_keepsProf _ (fun s hs => (resolutionSubs_keeps s hs).2) _ _ _ _ _ _
      (by simpa using hprof) h
     simpa using h2)

/-- The children of the `profile` node keep a populated profile field. -/
theorem profileSubs_keepsProf : ∀ s ∈ profileSubs, KeepsProf s.run := by
  intro s hs
  simp [profileSubs] at hs
  rcases hs with h | h | h <;> subst h
  · exact profile_active_keeps.2
  · exact cmd_resolution_keepsProf
  · exact (keeps_of_coreEq button_coreEq).2

/-- A decimal digit is not C whitespace. -/
theorem isSpaceC_false_of_digit (c : Char) (h : c.isDigit = true) : isSpaceC c = false := by
  by_contra hn
  rw [Bool.not_eq_false] at hn
  have hmem : c = ' ' ∨ c = '\t' ∨ c = '\n' ∨ c = '\r' ∨ c = '\x0b' ∨ c = '\x0c' := by
    unfold isSpaceC at hn
    simp only [Bool.or_eq_true, decide_eq_true_eq] at hn
    tauto
  rcases hmem with h1 | h1 | h1 | h1 | h1 | h1 <;> subst h1 <;> exact absurd h (by decide)

/-- Parser refinement: every token that fully parses as an integer (the
spec's `tryParseFullInteger`) also fully parses under the code's `strtod`
check, with the same value — so integer tokens always select an explicit
index. -/
theorem tryParse_implies_strtod (s : String) (v : Int)
    (h : tryParseFullInteger s = some v) : strtodFull s = some v := by
  unfold tryParseFullInteger at h
  cases hs : s.data with
  | nil =>
    rw [hs] at h
    simp [readSign, takeDigits] at h
  | cons c cs =>
    rw [hs] at h
    rcases hsign : readSign (c :: cs) with ⟨neg, cs1⟩
    rw [hsign] at h
    dsimp only at h
    rcases hdig : takeDigits cs1 0 0 with ⟨n, w, rest⟩
    rw [hdig] at h
    dsimp only at h
    split at h
    · rename_i hcond
      obtain ⟨hn, hrest⟩ := hcond
      subst hrest
      simp only [Option.some.injEq] at h
      have hspace : isSpaceC c = false := by
        by_cases h1 : c = '-'
        · subst h1; decide
        · by_cases h2 : c = '+'
          · subst h2; decide
          · have hcs1 : cs1 = c :: cs := by
              unfold readSign at hsign
              dsimp only at hsign
              rw [if_neg h1, if_neg h2] at hsign
              injection hsign with e1 e2
              exact e2.symm
            have hdigit : c.isDigit = true := by
              by_contra hnd
              rw [Bool.not_eq_true] at hnd
              rw [hcs1] at hdig
              unfold takeDigits at hdig
              rw [if_neg (by simp [hnd])] at hdig
              simp at hdig
            exact isSpaceC_false_of_digit c hdigit
      have hws : skipWs (c :: cs) = c :: cs := by
        unfold skipWs
        rw [hspace]
        simp
      unfold strtodFull
      rw [hs]
      try dsimp only
      rw [hws, hsign]
      try dsimp only
      rw [hdig]
      try dsimp only
      have hne : ¬ (n + 0 = 0) := by omega
      rw [if_neg hne]
      try dsimp only
      rw [← h]
      unfold truncVal
      cases neg <;> norm_num
    · cases h

/-- C3 amended: at the `resolution` and `profile` nodes the first token
selects an explicit indexed item if and only if the C `strtod` numeric
parse consumes the entire token (any decimal floating-point literal
counts, truncated toward zero — not only integers; every full-integer
token still qualifies, with the same value).  A fully-parsing token is
treated only as an index: the exact parsed index is stored, or
`ERR_UNSUPPORTED` is returned when it is out of range — never a fallback
to the active item.  A token that does not fully parse is treated only as
active-item resolution followed by subcommand matching: the active item's
index is stored, or `ERR_DEVICE` when none is active. -/
theorem C3_strtod_governs_index_selection (env : REnv) (c : Ctx) (a : Args) (t : String)
    (hlen : 1 ≤ a.len) (ht : a.get 0 = some t) :
    (∀ v, tryParseFullInteger t = some v → strtodFull t = some v) ∧
    (strtodFull t = none → ∀ rc c', ratbag_cmd_resolution env c a = some (rc, c') →
      (∃ ri, ratbag_cmd_get_active_resolution c.device c.profile = some (some ri) ∧
        c'.resolution = some ri) ∨ (rc = ERR_DEVICE ∧ c' = c)) ∧
    (∀ v, strtodFull t = some v → ∀ rc c', ratbag_cmd_resolution env c a = some (rc, c') →
      c'.resolution = some v.toNat ∨ (rc = ERR_UNSUPPORTED ∧ c' = c)) ∧
    (strtodFull t = none → ∀ rc c', ratbag_cmd_profile env c a = some (rc, c') →
      (∃ pi, ratbag_cmd_get_active_profile c.device = some (some pi) ∧
        c'.profile = some pi) ∨ (rc = ERR_DEVICE ∧ c' = c)) ∧
    (∀ v, strtodFull t = some v → ∀ rc c', ratbag_cmd_profile env c a = some (rc, c') →
      c'.profile = some v.toNat ∨ (rc = ERR_UNSUPPORTED ∧ c' = c)) := by
  have hlt : ¬ a.len < 1 := by omega
  refine ⟨fun v => tryParse_implies_strtod t v, ?_, ?_, ?_, ?_⟩
  · intro hparse rc c' hrun
    unfold ratbag_cmd_resolution at hrun
    rw [if_neg hlt, ht] at hrun
    try dsimp only at hrun
    rw [hparse] at hrun
    try dsimp only at hrun
    cases hact : ratbag_cmd_get_active_resolution c.device c.profile with
    | none => rw [hact] at hrun; cases hrun
    | some o =>
      cases o with
      | none =>
        rw [hact] at hrun
        try dsimp only at hrun
        simp at hrun
        right
        exact ⟨hrun.1.symm, hrun.2.symm⟩
      | some ri =>
        rw [hact] at hrun
        try dsimp only at hrun
        left
        refine ⟨ri, rfl, ?_⟩
        have h2 := run_keepsRes resolutionSubs (fun s hs => (resolutionSubs_keeps s hs).1)
          _ _ _ _ _ _ (by simp) hrun
        simpa using h2
  · intro v hparse rc c' hrun
    unfold ratbag_cmd_resolution at hrun
    rw [if_neg hlt, ht] at hrun
    try dsimp only at hrun
    rw [hparse] at hrun
    try dsimp only at hrun
    cases hd : c.device with
    | none => rw [hd] at hrun; cases hp : c.profile <;> rw [hp] at hrun <;> cases hrun
    | some d =>
      rw [hd] at hrun
      cases hp : c.profile with
      | none => rw [hp] at hrun; cases hrun
      | some pi =>
        rw [hp] at hrun
        try dsimp only at hrun
        cases hpr : d.profiles[pi]? with
        | none => rw [hpr] at hrun; cases hrun
        | some pr =>
          rw [hpr] at hrun
          try dsimp only at hrun
          split at hrun
          · try dsimp only at hrun
            cases hg1 : (a.advance).get 0 with
            | none => rw [hg1] at hrun; cases hrun
            | some command1 =>
              rw [hg1] at hrun
              try dsimp only at hrun
              left
              have h2 := run_keepsRes resolutionSubs (fun s hs => (resolutionSubs_keeps s hs).1)
                _ _ _ _ _ _ (by simp) hrun
              simpa using h2
          · simp at hrun
            right
            exact ⟨hrun.1.symm, hrun.2.symm⟩
  · intro hparse rc c' hrun
    unfold ratbag_cmd_profile at hrun
    rw [if_neg hlt, ht] at hrun
    try dsimp only at hrun
    rw [hparse] at hrun
    try dsimp only at hrun
    cases hact : ratbag_cmd_get_active_profile c.device with
    | none => rw [hact] at hrun; cases hrun
    | some o =>
      cases o with
      | none =>
        rw [hact] at hrun
        try dsimp only at hrun
        simp at hrun
        right
        exact ⟨hrun.1.symm, hrun.2.symm⟩
      | some pi =>
        rw [hact] at hrun
        try dsimp only at hrun
        left
        refine ⟨pi, rfl, ?_⟩
        have h2 := run_keepsProf profileSubs profileSubs_keepsProf
          _ _ _ _ _ _ (by simp) hrun
        simpa using h2
  · intro v hparse rc c' hrun
    unfold ratbag_cmd_profile at hrun
    rw [if_neg hlt, ht] at hrun
    try dsimp only at hrun
    rw [hparse] at hrun
    try dsimp only at hrun
    cases hd : c.device with
    | none => rw [hd] at hrun; cases hrun
    | some d =>
      rw [hd] at hrun
      try dsimp only at hrun
      cases hgp : ratbag_device_get_profile_by_index d v with
      | none =>
        rw [hgp] at hrun
        simp at hrun
        right
        exact ⟨hrun.1.symm, hrun.2.symm⟩
      | some pi =>
        rw [hgp] at hrun
        try dsimp only at hrun
        have hpi : pi = v.toNat := by
          unfold ratbag_device_get_profile_by_index at hgp
          split at hgp
          · injection hgp with e; exact e.symm
          · cases hgp
        cases hg1 : (a.advance).get 0 with
        | none => rw [hg1] at hrun; cases hrun
        | some command1 =>
          rw [hg1] at hrun
          try dsimp only at hrun
          left
          have h2 := run_keepsProf profileSubs profileSubs_keepsProf
            _ _ _ _ _ _ (by simp) hrun
          rw [hpi] at h2
          simpa using h2

/-- C3 amended witness: on the fixture, the token "1.5" fully parses under
`strtod` with value 1 and `resolution 1.5 dpi get` stores exactly
resolution index 1. -/
theorem C3_strtod_governs_index_selection_witness :
    cRes15.resolution = some ((1 : Int)).toNat ∨ (SUCCESS = ERR_UNSUPPORTED ∧ cRes15 = cDevProf) :=
  (C3_strtod_governs_index_selection wEnv cDevProf aRes15 "1.5" (by decide) (by decide)).2.2.1
    1 (by decide) SUCCESS cRes15 (by decide)

/-- A defined result of the active-resolution scan means both the device
and the profile handles were non-null. -/
theorem active_res_some_inv (d : Option Device) (p : Option Nat) (o : Option Nat)
    (h : ratbag_cmd_get_active_resolution d p = some o) :
    d.isSome = true ∧ p.isSome = true := by
  unfold ratbag_cmd_get_active_resolution at h
  cases d <;> cases p <;> simp_all

/-- A defined result of the active-profile scan means the device handle
was non-null. -/
theorem active_prof_some_inv (d : Option Device) (o : Option Nat)
    (h : ratbag_cmd_get_active_profile d = some o) : d.isSome = true := by
  unfold ratbag_cmd_get_active_profile at h
  cases d <;> simp_all

/-- The resolution block of `fill_options` preserves context
well-formedness. -/
theorem fill_res_wf (env : REnv) (c : Ctx) (f : CmdFlags) (a : Args) (rc : Int)
    (c' : Ctx) (a' : Args) (hw : WfC c)
    (h : fill_options_res env c f a = some (rc, c', a')) : WfC c' := by
  unfold fill_options_res at h
  split at h
  · rename_i hguard
    rw [Bool.and_eq_true] at hguard
    cases hact : ratbag_cmd_get_active_resolution c.device c.profile with
    | none => rw [hact] at h; cases h
    | some o =>
      cases o with
      | none =>
        rw [hact] at h
        simp at h
        rw [← h.2.1]
        exact hw
      | some ri =>
        rw [hact] at h
        simp at h
        rw [← h.2.1]
        have hinv := active_res_some_inv _ _ _ hact
        have hnone : c.resolution = none := by
          simpa [Option.isNone_iff_eq_none] using hguard.2
        obtain ⟨w1, w2, w3, w4, w5⟩ := hw
        refine ⟨by simpa using w1, by simp [hinv.2], by simpa using w3, by simpa using w4, ?_⟩
        simp [hnone] at w5
        simp [w5]
  · simp at h
    rw [← h.2.1]
    exact hw

/-- The profile and resolution blocks of `fill_options` preserve context
well-formedness. -/
theorem fill_prof_wf (env : REnv) (c : Ctx) (f : CmdFlags) (a : Args) (rc : Int)
    (c' : Ctx) (a' : Args) (hw : WfC c)
    (h : fill_options_prof env c f a = some (rc, c', a')) : WfC c' := by
  unfold fill_options_prof at h
  split at h
  · rename_i hguard
    rw [Bool.and_eq_true] at hguard
    cases hact : ratbag_cmd_get_active_profile c.device with
    | none => rw [hact] at h; cases h
    | some o =>
      cases o with
      | none =>
        rw [hact] at h
        simp at h
        rw [← h.2.1]
        exact hw
      | some pi =>
        rw [hact] at h
        refine fill_res_wf _ _ _ _ _ _ _ ?_ h
        have hinv := active_prof_some_inv _ _ hact
        have hnone : c.profile = none := by
          simpa [Option.isNone_iff_eq_none] using hguard.2
        obtain ⟨w1, w2, w3, w4, w5⟩ := hw
        refine ⟨by simp [hinv], by simp, by simpa using w3, ?_, by simpa using w5⟩
        simp [hnone] at w4
        simp [w4]
  · exact fill_res_wf _ _ _ _ _ _ _ hw h

/-- `fill_options` preserves context well-formedness. -/
theorem fill_wf (env : REnv) (c : Ctx) (f : CmdFlags) (a : Args) (rc : Int)
    (c' : Ctx) (a' : Args) (hw : WfC c)
    (h : fill_options env c f a = some (rc, c', a')) : WfC c' := by
  unfold fill_options at h
  split at h
  · rename_i hguard
    rw [Bool.and_eq_true] at hguard
    cases hda : ratbag_cmd_device_from_arg env a with
    | none => rw [hda] at h; cases h
    | some r =>
      rw [hda] at h
      obtain ⟨dv, a1⟩ := r
      cases dv with
      | none =>
        simp at h
        rw [← h.2.1]
        exact hw
      | some d =>
        refine fill_prof_wf _ _ _ _ _ _ _ ?_ h
        have hnone : c.device = none := by
          simpa [Option.isNone_iff_eq_none] using hguard.2
        obtain ⟨w1, w2, w3, w4, w5⟩ := hw
        refine ⟨by simp, by simpa using w2, ?_, by simpa using w4, by simpa using w5⟩
        simp [hnone] at w3
        simp [w3]
  · exact fill_prof_wf _ _ _ _ _ _ _ hw h

/-- Without the resolution flag `fill_options_res` leaves the resolution
field untouched. -/
theorem fill_res_keep_flag (env : REnv) (c : Ctx) (f : CmdFlags) (a : Args) (rc : Int)
    (c' : Ctx) (a' : Args) (hf : f.needResolution = false)
    (h : fill_options_res env c f a = some (rc, c', a')) :
    c'.resolution = c.resolution := by
  unfold fill_options_res at h
  rw [hf] at h
  simp at h
  rw [← h.2.1]

/-- Without the resolution flag the profile/resolution blocks leave the
resolution field untouched; without the profile and resolution flags they
leave the profile field untouched as well. -/
theorem fill_prof_keep_flag (env : REnv) (c : Ctx) (f : CmdFlags) (a : Args) (rc : Int)
    (c' : Ctx) (a' : Args) (h : fill_options_prof env c f a = some (rc, c', a')) :
    (f.needResolution = false → c'.resolution = c.resolution) ∧
    (f.needProfile = false → f.needResolution = false → c'.profile = c.profile) := by
  unfold fill_options_prof at h
  split at h
  · rename_i hguard
    rw [Bool.and_eq_true] at hguard
    cases hact : ratbag_cmd_get_active_profile c.device with
    | none => rw [hact] at h; cases h
    | some o =>
      cases o with
      | none =>
        rw [hact] at h
        simp at h
        rw [← h.2.1]
        exact ⟨fun _ => rfl, fun _ _ => rfl⟩
      | some pi =>
        rw [hact] at h
        constructor
        · intro hf
          rw [fill_res_keep_flag _ _ _ _ _ _ _ hf h]
        · intro hp hr
          rcases hguard.1 with hg
          rw [hp, hr] at hg
          cases hg
  · constructor
    · intro hf
      rw [fill_res_keep_flag _ _ _ _ _ _ _ hf h]
    · intro _ _
      exact ((fill_res_keep _ _ _ _ _ _ _ h).2.2.1)

/-- Without the resolution flag `fill_options` leaves the resolution field
untouched; without the profile and resolution flags it leaves the profile
field untouched as well. -/
theorem fill_keep_flag (env : REnv) (c : Ctx) (f : CmdFlags) (a : Args) (rc : Int)
    (c' : Ctx) (a' : Args) (h : fill_options env c f a = some (rc, c', a')) :
    (f.needResolution = false → c'.resolution = c.resolution) ∧
    (f.needProfile = false → f.needResolution = false → c'.profile = c.profile) := by
  unfold fill_options at h
  split at h
  · cases hda : ratbag_cmd_device_from_arg env a with
    | none => rw [hda] at h; cases h
    | some r =>
      rw [hda] at h
      obtain ⟨dv, a1⟩ := r
      cases dv with
      | none =>
        simp at h
        rw [← h.2.1]
        exact ⟨fun _ => rfl, fun _ _ => rfl⟩
      | some d =>
        dsimp only at h
        have hk := fill_prof_keep_flag _ _ _ _ _ _ _ h
        exact ⟨fun hf => hk.1 hf, fun hp hr => hk.2 hp hr⟩
  · exact fill_prof_keep_flag _ _ _ _ _ _ _ h

/-- A core-preserving handler preserves context well-formedness. -/
theorem handlerWf_of_coreEq {h : Handler}
    (hc : ∀ env c a rc c', h env c a = some (rc, c') → coreEq c c') : HandlerWf h := by
  intro env c a rc c' hw hr
  obtain ⟨e1, e2, e3, e4, e5, e6⟩ := hc env c a rc c' hr
  unfold WfC at hw ⊢
  rw [e1, e2, e3, e4, e5, e6]
  exact hw

/-- A subcommand dispatch over well-formedness-preserving handlers
preserves context well-formedness. -/
theorem run_wf (subs : List Cmd) (hs : ∀ s ∈ subs, HandlerWf s.run)
    (env : REnv) (command : String) (c : Ctx) (a : Args) (rc : Int) (c' : Ctx)
    (hw : WfC c) (h : run_subcommand subs env command c a = some (rc, c')) : WfC c' := by
  unfold run_subcommand at h
  cases hfind : List.find? (fun s => s.name == command) subs with
  | none => rw [hfind] at h; simp at h; rw [← h.2]; exact hw
  | some sub =>
    rw [hfind] at h
    dsimp only at h
    have hmem := List.mem_of_find?_eq_some hfind
    cases hfill : fill_options env c sub.flags a with
    | none => rw [hfill] at h; cases h
    | some t =>
      obtain ⟨rc1, c1, a1⟩ := t
      rw [hfill] at h
      dsimp only at h
      have hk := fill_wf _ _ _ _ _ _ _ hw hfill
      split at h
      · simp at h; rw [← h.2]; exact hk
      · exact hs sub hmem env c1 a1.advance rc c' hk h

/-- The active get/set leaves preserve context well-formedness. -/
theorem profileActiveSubs_wf : ∀ s ∈ profileActiveSubs, HandlerWf s.run := by
  intro s hs
  simp [profileActiveSubs] at hs
  rcases hs with h | h <;> subst h
  · exact handlerWf_of_coreEq profile_active_get_coreEq
  · exact handlerWf_of_coreEq profile_active_set_coreEq

/-- The resolution-active get/set leaves preserve context
well-formedness. -/
theorem resolutionActiveSubs_wf : ∀ s ∈ resolutionActiveSubs, HandlerWf s.run := by
  intro s hs
  simp [resolutionActiveSubs] at hs
  rcases hs with h | h <;> subst h
  · exact handlerWf_of_coreEq res_active_get_coreEq
  · exact handlerWf_of_coreEq res_active_set_coreEq

/-- The dpi get/set leaves preserve context well-formedness. -/
theorem resolutionDpiSubs_wf : ∀ s ∈ resolutionDpiSubs, HandlerWf s.run := by
  intro s hs
  simp [resolutionDpiSubs] at hs
  rcases hs with h | h <;> subst h
  · exact handlerWf_of_coreEq dpi_get_coreEq
  · exact handlerWf_of_coreEq dpi_set_coreEq

/-- `ratbag_cmd_profile_active` preserves context well-formedness. -/
theorem profile_active_wf : HandlerWf ratbag_cmd_profile_active := by
  intro env c a rc c' hw h
  unfold ratbag_cmd_profile_active at h
  repeat' split at h
  · simp at h; rw [← h.2]; exact hw
  · cases h
  · exact run_wf _ profileActiveSubs_wf _ _ _ _ _ _ hw h

/-- `ratbag_cmd_resolution_active` preserves context well-formedness. -/
theorem resolution_active_wf : HandlerWf ratbag_cmd_resolution_active := by
  intro env c a rc c' hw h
  unfold ratbag_cmd_resolution_active at h
  repeat' split at h
  · simp at h; rw [← h.2]; exact hw
  · cases h
  · exact run_wf _ resolutionActiveSubs_wf _ _ _ _ _ _ hw h

/-- `ratbag_cmd_resolution_dpi` preserves context well-formedness. -/
theorem resolution_dpi_wf : HandlerWf ratbag_cmd_resolution_dpi := by
  intro env c a rc c' hw h
  unfold ratbag_cmd_resolution_dpi at h
  repeat' split at h
  · simp at h; rw [← h.2]; exact hw
  · cases h
  · exact run_wf _ resolutionDpiSubs_wf _ _ _ _ _ _ hw h

/-- The children of the `resolution` node preserve context
well-formedness. -/
theorem resolutionSubs_wf : ∀ s ∈ resolutionSubs, HandlerWf s.run := by
  intro s hs
  simp [resolutionSubs] at hs
  rcases hs with h | h <;> subst h
  · exact resolution_active_wf
  · exact resolution_dpi_wf

/-- `ratbag_cmd_resolution` preserves context well-formedness when called
with the resolution field still unset — which is how every reachable
dispatch calls it, since no ancestor node carries the resolution flag. -/
theorem cmd_resolution_wf (env : REnv) (c : Ctx) (a : Args) (rc : Int) (c' : Ctx)
    (hw : WfC c) (hres : c.resolution = none)
    (h : ratbag_cmd_resolution env c a = some (rc, c')) : WfC c' := by
  unfold ratbag_cmd_resolution at h
  repeat' split at h
  all_goals try (simp only [ne_eq] at h; repeat' split at h)
  all_goals try (cases h)
  all_goals try (exact hw)
  -- remaining: the two dispatch branches (explicit index and active item)
  case _ v hv d pi hd hp pr hpr hrange a1cmd hget =>
    refine run_wf _ resolutionSubs_wf _ _ _ _ _ _ ?_ h
    obtain ⟨w1, w2, w3, w4, w5⟩ := hw
    refine ⟨by simpa using w1, by simp_all, by simpa using w3, by simpa using w4, ?_⟩
    simp [hres] at w5
    simp [w5]
  case _ hv ri hact =>
    refine run_wf _ resolutionSubs_wf _ _ _ _ _ _ ?_ h
    have hinv := active_res_some_inv _ _ _ hact
    obtain ⟨w1, w2, w3, w4, w5⟩ := hw
    refine ⟨by simpa using w1, by simp [hinv.2], by simpa using w3, by simpa using w4, ?_⟩
    simp [hres] at w5
    simp [w5]

/-- Dispatching over the `profile` node's children preserves context
well-formedness when the resolution field is still unset (none of these
children carries the resolution flag, so the `resolution` child receives an
unset resolution field as it requires). -/
theorem run_profileSubs_wf (env : REnv) (command : String) (c : Ctx) (a : Args)
    (rc : Int) (c' : Ctx) (hw : WfC c) (hres : c.resolution = none)
    (h : run_subcommand profileSubs env command c a = some (rc, c')) : WfC c' := by
  unfold run_subcommand at h
  cases hfind : List.find? (fun s => s.name == command) profileSubs with
  | none => rw [hfind] at h; simp at h; rw [← h.2]; exact hw
  | some sub =>
    rw [hfind] at h
    dsimp only at h
    have hmem := List.mem_of_find?_eq_some hfind
    cases hfill : fill_options env c sub.flags a with
    | none => rw [hfill] at h; cases h
    | some t =>
      obtain ⟨rc1, c1, a1⟩ := t
      rw [hfill] at h
      dsimp only at h
      have hk := fill_wf _ _ _ _ _ _ _ hw hfill
      split at h
      · simp at h; rw [← h.2]; exact hk
      · simp [profileSubs] at hmem
        rcases hmem with hm | hm | hm <;> subst hm
        · exact profile_active_wf env c1 a1.advance rc c' hk h
        · refine cmd_resolution_wf env c1 a1.advance rc c' hk ?_ h
          rw [(fill_keep_flag _ _ _ _ _ _ _ hfill).1 rfl]
          exact hres
        · exact handlerWf_of_coreEq button_coreEq env c1 a1.advance rc c' hk h

/-- `ratbag_cmd_profile` preserves context well-formedness when called
with the profile and resolution fields still unset — which is how every
reachable dispatch calls it, since it is only a top-level child whose
flags request only the device. -/
theorem cmd_profile_wf (env : REnv) (c : Ctx) (a : Args) (rc : Int) (c' : Ctx)
    (hw : WfC c) (hprof : c.profile = none) (hres : c.resolution = none)
    (h : ratbag_cmd_profile env c a = some (rc, c')) : WfC c' := by
  unfold ratbag_cmd_profile at h
  repeat' split at h
  all_goals try (simp only [ne_eq] at h; repeat' split at h)
  all_goals try (cases h)
  all_goals try (exact hw)
  case _ v hv d hd pi hpi a1cmd hget =>
    refine run_profileSubs_wf _ _ _ _ _ _ ?_ (by simpa using hres) h
    obtain ⟨w1, w2, w3, w4, w5⟩ := hw
    refine ⟨by simp_all, by simpa using w2, by simpa using w3, ?_, by simpa using w5⟩
    simp [hprof] at w4
    simp [w4]
  case _ hv pi hact =>
    refine run_profileSubs_wf _ _ _ _ _ _ ?_ (by simpa using hres) h
    have hinv := active_prof_some_inv _ _ hact
    obtain ⟨w1, w2, w3, w4, w5⟩ := hw
    refine ⟨by simp [hinv], by simpa using w2, by simpa using w3, ?_, by simpa using w5⟩
    simp [hprof] at w4
    simp [w4]

/-- Dispatching over the top-level command list from a context with unset
profile and resolution fields preserves context well-formedness. -/
theorem run_top_wf (env : REnv) (command : String) (c : Ctx) (a : Args)
    (rc : Int) (c' : Ctx) (hw : WfC c) (hprof : c.profile = none)
    (hres : c.resolution = none)
    (h : run_subcommand topSubs env command c a = some (rc, c')) : WfC c' := by
  unfold run_subcommand at h
  cases hfind : List.find? (fun s => s.name == command) topSubs with
  | none => rw [hfind] at h; simp at h; rw [← h.2]; exact hw
  | some sub =>
    rw [hfind] at h
    dsimp only at h
    have hmem := List.mem_of_find?_eq_some hfind
    cases hfill : fill_options env c sub.flags a with
    | none => rw [hfill] at h; cases h
    | some t =>
      obtain ⟨rc1, c1, a1⟩ := t
      rw [hfill] at h
      dsimp only at h
      have hk := fill_wf _ _ _ _ _ _ _ hw hfill
      have hkf := fill_keep_flag _ _ _ _ _ _ _ hfill
      split at h
      · simp at h; rw [← h.2]; exact hk
      · simp [topSubs] at hmem
        rcases hmem with hm | hm | hm | hm | hm | hm | hm | hm <;> subst hm
        · exact handlerWf_of_coreEq info_coreEq env c1 a1.advance rc c' hk h
        · exact handlerWf_of_coreEq list_coreEq env c1 a1.advance rc c' hk h
        · exact handlerWf_of_coreEq change_button_coreEq env c1 a1.advance rc c' hk h
        · exact handlerWf_of_coreEq switch_etekcity_coreEq env c1 a1.advance rc c' hk h
        · exact handlerWf_of_coreEq button_coreEq env c1 a1.advance rc c' hk h
        · refine cmd_resolution_wf env c1 a1.advance rc c' hk ?_ h
          rw [hkf.1 rfl]
          exact hres
        · refine cmd_profile_wf env c1 a1.advance rc c' hk ?_ ?_ h
          · rw [hkf.2 rfl rfl]
            exact hprof
          · rw [hkf.1 rfl]
            exact hres
        · exact resolution_dpi_wf env c1 a1.advance rc c' hk h

/-- Every defined run of the modelled `main` dispatch produces a
well-formed context: dependency chain intact and acquisition counters
matching the populated handle fields. -/
theorem mainRun_wf (env : REnv) (toks : List String) (rc : Int) (c : Ctx)
    (h : mainRun env toks = some (rc, c)) : WfC c := by
  have hw0 : WfC initialOptions := by
    unfold WfC initialOptions
    simp
  unfold mainRun at h
  cases toks with
  | nil => simp at h; rw [← h.2]; exact hw0
  | cons command rest =>
    exact run_top_wf _ _ _ _ _ _ hw0 rfl rfl h

/-- C5: every defined invocation preserves the dependency-chain invariant
of the resolved context — at exit, the resolution handle is populated only
if the profile handle is, and the profile handle only if the device handle
is.  (`fill_options` resolves device before profile before resolution, and
no handler stores a dependent handle without its prerequisite.) -/
theorem C5_dependency_chain (env : REnv) (toks : List String) (rc : Int) (c : Ctx)
    (h : mainRun env toks = some (rc, c)) :
    (c.resolution.isSome → c.profile.isSome) ∧ (c.profile.isSome → c.device.isSome) := by
  have hw := mainRun_wf env toks rc c h
  exact ⟨hw.2.1, hw.1⟩

/-- C5 witness: the `dpi get` invocation resolves all three handles and
the chain holds on its final context. -/
theorem C5_dependency_chain_witness :
    (wCtxDpi.resolution.isSome → wCtxDpi.profile.isSome) ∧
    (wCtxDpi.profile.isSome → wCtxDpi.device.isSome) :=
  C5_dependency_chain wEnv [ "dpi", "get", "/dev/x" ] SUCCESS wCtxDpi (by decide)

/-- C6: on every defined exit path the unconditional releases in `main`
(one unref per context handle, null ones being no-ops) balance the
acquisitions exactly: for each of device, profile and resolution the
release count equals the acquisition count — no leak and no
double-release. -/
theorem C6_release_equals_acquire (env : REnv) (toks : List String) (rc : Int) (c : Ctx)
    (h : mainRun env toks = some (rc, c)) :
    mainReleases c = (c.devAcq, c.profAcq, c.resAcq) := by
  have hw := mainRun_wf env toks rc c h
  unfold mainReleases
  rw [hw.2.2.1, hw.2.2.2.1, hw.2.2.2.2]

/-- C6 witness: the `dpi get` invocation acquires each of the three
handles once and `main` releases each exactly once. -/
theorem C6_release_equals_acquire_witness :
    mainReleases wCtxDpi = (wCtxDpi.devAcq, wCtxDpi.profAcq, wCtxDpi.resAcq) :=
  C6_release_equals_acquire wEnv [ "dpi", "get", "/dev/x" ] SUCCESS wCtxDpi (by decide)

/-- Arithmetic core of the row property: the floor is at least 4, and a
nonnegative residual of at least 4 prints at least 4 dots. -/
theorem urow_arith (n1 : Int) (len : Nat) :
    4 ≤ (if n1 < 4 then 4 else n1) ∧
    ((len : Int) + 4 ≤ (if n1 < 4 then 4 else n1) →
      4 ≤ (if (if n1 < 4 then 4 else n1) - (len : Int) < 0 then dotsLen
           else min ((if n1 < 4 then 4 else n1) - (len : Int)).toNat dotsLen)) := by
  have hd : (4 : Nat) ≤ dotsLen := by norm_num [dotsLen]
  constructor
  · split <;> omega
  · intro hle
    have h4 : 4 ≤ (if n1 < 4 then 4 else n1) := by split <;> omega
    have hpos : ¬ ((if n1 < 4 then 4 else n1) - (len : Int) < 0) := by omega
    rw [if_neg hpos]
    have htn : 4 ≤ ((if n1 < 4 then 4 else n1) - (len : Int)).toNat := by omega
    exact le_min htn hd

/-- Every individually built usage row satisfies the row property: floored
count at least 4, and at least 4 printed dots whenever the prefix is short
enough. -/
theorem mkURow_prop (pfx : String) (sub : UNode) : URowProp (mkURow pfx sub) := by
  unfold URowProp mkURow
  dsimp only
  exact urow_arith _ _

mutual

/-- Every row rendered for a node's subtree satisfies the row property. -/
theorem usageRows_prop : ∀ (u : UNode) (pfxIn : String) (r : URow),
    r ∈ usageRows u pfxIn → URowProp r
  | UNode.mk nm args hl subs, pfxIn, r, h => by
    unfold usageRows at h
    exact usageRowsList_prop subs _ r h

/-- Every row rendered for a child list satisfies the row property. -/
theorem usageRowsList_prop : ∀ (l : UList) (pfx : String) (r : URow),
    r ∈ usageRowsList l pfx → URowProp r
  | UList.unil, pfx, r, h => by simp [usageRowsList] at h
  | UList.ucons sub rest, pfx, r, h => by
    unfold usageRowsList at h
    rcases List.mem_append.mp h with h1 | h2
    · rcases List.mem_append.mp h1 with h3 | h4
      · cases hh : sub.help with
        | some hlp =>
          rw [hh] at h3
          simp at h3
          rw [h3]
          exact mkURow_prop pfx sub
        | none => rw [hh] at h3; simp at h3
      · exact usageRows_prop sub pfx r h4
    · exact usageRowsList_prop rest pfx r h2

end

/-- C9 amended: the per-node count (from name and args lengths) is floored
at 4 before the accumulated prefix is subtracted, so every printed row with
a short enough prefix (length at most the floored count minus 4) keeps at
least a 4-dot fill; rows whose prefix is longer can print fewer dots — down
to 0 — and a negative residual prints the whole 41-dot string. -/
theorem C9_floor_applies_before_prefix (u : UNode) (pfxIn : String) (r : URow)
    (h : r ∈ usageRows u pfxIn) :
    4 ≤ r.floored ∧ ((r.pfx.length : Int) + 4 ≤ r.floored → 4 ≤ r.dots) :=
  usageRows_prop u pfxIn r h

/-- C9 amended witness: the `info` row of the actual tree has a short
prefix and keeps a 21-dot fill. -/
theorem C9_floor_applies_before_prefix_witness :
    4 ≤ ({ pfx := "ratbag-command ", rowNm := "info", floored := 36, dots := 21 } : URow).floored ∧
    ((({ pfx := "ratbag-command ", rowNm := "info", floored := 36, dots := 21 } : URow).pfx.length : Int) + 4 ≤
        ({ pfx := "ratbag-command ", rowNm := "info", floored := 36, dots := 21 } : URow).floored →
      4 ≤ ({ pfx := "ratbag-command ", rowNm := "info", floored := 36, dots := 21 } : URow).dots) :=
  C9_floor_applies_before_prefix uTop ""
    { pfx := "ratbag-command ", rowNm := "info", floored := 36, dots := 21 } (by decide)
